import Mathlib

/-!
Verification of the dial parameter selection and replay engine
(`psiphon/dialParameters.go`) against its natural-language specification.

The Go code is shallowly embedded: pure helpers become Lean functions;
randomness (`prng`, `WeightedCoinFlip`, canned `values.Get*`), external
selectors (`SelectTLSProfile`, `FrontingSpecs.SelectParameters`,
`transforms.Specs.Select`, `regen.GenerateString`, the resolver) and the
platform (`ClientBPFEnabled`) are supplied through an explicit `Oracle` /
`Env` record, so one evaluation of the embedding corresponds to one
execution of `MakeDialParameters` with those draws.  `time.Time` and
`time.Duration` are modelled as `Int` (the zero value of `time.Time` is
`0`), `float64` as `Rat`, byte strings as `List Nat`, and opaque seeds /
transform specs as `Nat`.  Store effects are returned explicitly:
`MakeDialParameters` returns the would-be `DeleteDialParameters` key,
`Succeeded` the `SetDialParameters` write, `Failed` the delete key.
-/

namespace DialSpec

/-- Tunnel protocol name constants.  Modelled from the spec: the constants
live in the repository's `protocol` package, which is not part of the
provided sources; the names follow the spec's protocol table (§4.G). -/
def TUNNEL_PROTOCOL_SSH : String := "SSH"

def TUNNEL_PROTOCOL_OBFUSCATED_SSH : String := "OSSH"

def TUNNEL_PROTOCOL_TLS_OBFUSCATED_SSH : String := "TLS-OSSH"

def TUNNEL_PROTOCOL_TAPDANCE_OBFUSCATED_SSH : String := "TAPDANCE-OSSH"

def TUNNEL_PROTOCOL_CONJURE_OBFUSCATED_SSH : String := "CONJURE-OSSH"

def TUNNEL_PROTOCOL_QUIC_OBFUSCATED_SSH : String := "QUIC-OSSH"

def TUNNEL_PROTOCOL_FRONTED_MEEK : String := "FRONTED-MEEK-OSSH"

def TUNNEL_PROTOCOL_FRONTED_MEEK_HTTP : String := "FRONTED-MEEK-HTTP-OSSH"

def TUNNEL_PROTOCOL_FRONTED_MEEK_QUIC_OBFUSCATED_SSH : String := "FRONTED-MEEK-QUIC-OSSH"

def TUNNEL_PROTOCOL_UNFRONTED_MEEK : String := "UNFRONTED-MEEK-OSSH"

def TUNNEL_PROTOCOL_UNFRONTED_MEEK_HTTPS : String := "UNFRONTED-MEEK-HTTPS-OSSH"

def TUNNEL_PROTOCOL_UNFRONTED_MEEK_SESSION_TICKET : String := "UNFRONTED-MEEK-SESSION-TICKET-OSSH"

/-- QUIC version constants used by the hard-coded legacy fronted disable
set in `selectQUICVersion`.  Modelled from the spec (§4.E): the constants
live in the `protocol` package, outside the provided sources. -/
def QUIC_VERSION_V1 : String := "QUICv1"

def QUIC_VERSION_RANDOMIZED_V1 : String := "RANDOMIZED-QUICv1"

def QUIC_VERSION_OBFUSCATED_V1 : String := "OBFUSCATED-QUICv1"

def QUIC_VERSION_DECOY_V1 : String := "DECOY-QUICv1"

/-- Modelled from the spec: `protocol.TunnelProtocolUsesFrontedMeek`
(protocol classifiers are in the `protocol` package, outside the provided
sources; the fronted-meek family is the FRONTED-MEEK rows of the spec's
dial-address table). -/
def tunnelProtocolUsesFrontedMeek (p : String) : Bool :=
  p = TUNNEL_PROTOCOL_FRONTED_MEEK ∨
  p = TUNNEL_PROTOCOL_FRONTED_MEEK_HTTP ∨
  p = TUNNEL_PROTOCOL_FRONTED_MEEK_QUIC_OBFUSCATED_SSH

/-- Modelled from the spec: `protocol.TunnelProtocolUsesMeekHTTPS`
(FRONTED-MEEK and the unfronted HTTPS/session-ticket meek modes use TLS). -/
def tunnelProtocolUsesMeekHTTPS (p : String) : Bool :=
  p = TUNNEL_PROTOCOL_FRONTED_MEEK ∨
  p = TUNNEL_PROTOCOL_UNFRONTED_MEEK_HTTPS ∨
  p = TUNNEL_PROTOCOL_UNFRONTED_MEEK_SESSION_TICKET

/-- Modelled from the spec: `protocol.TunnelProtocolUsesMeekHTTP`. -/
def tunnelProtocolUsesMeekHTTP (p : String) : Bool :=
  p = TUNNEL_PROTOCOL_UNFRONTED_MEEK ∨ p = TUNNEL_PROTOCOL_FRONTED_MEEK_HTTP

/-- Modelled from the spec: `protocol.TunnelProtocolUsesFrontedMeekQUIC`. -/
def tunnelProtocolUsesFrontedMeekQUIC (p : String) : Bool :=
  p = TUNNEL_PROTOCOL_FRONTED_MEEK_QUIC_OBFUSCATED_SSH

/-- Modelled from the spec: `protocol.TunnelProtocolUsesMeek` (any meek
transported protocol, fronted or unfronted, HTTP, HTTPS or QUIC). -/
def tunnelProtocolUsesMeek (p : String) : Bool :=
  tunnelProtocolUsesMeekHTTP p ∨ tunnelProtocolUsesMeekHTTPS p ∨
  tunnelProtocolUsesFrontedMeekQUIC p

/-- Modelled from the spec: `protocol.TunnelProtocolUsesQUIC`. -/
def tunnelProtocolUsesQUIC (p : String) : Bool :=
  p = TUNNEL_PROTOCOL_QUIC_OBFUSCATED_SSH ∨
  p = TUNNEL_PROTOCOL_FRONTED_MEEK_QUIC_OBFUSCATED_SSH

/-- Modelled from the spec: `protocol.TunnelProtocolUsesTLSOSSH`. -/
def tunnelProtocolUsesTLSOSSH (p : String) : Bool :=
  p = TUNNEL_PROTOCOL_TLS_OBFUSCATED_SSH

/-- Modelled from the spec: `protocol.TunnelProtocolUsesConjure`. -/
def tunnelProtocolUsesConjure (p : String) : Bool :=
  p = TUNNEL_PROTOCOL_CONJURE_OBFUSCATED_SSH

/-- Modelled from the spec: `protocol.TunnelProtocolUsesTCP` (every tunnel
protocol except the QUIC-transported ones). -/
def tunnelProtocolUsesTCP (p : String) : Bool :=
  ¬ (p = TUNNEL_PROTOCOL_QUIC_OBFUSCATED_SSH ∨
     p = TUNNEL_PROTOCOL_FRONTED_MEEK_QUIC_OBFUSCATED_SSH)

/-- Modelled from the spec: `protocol.TunnelProtocolSupportsUpstreamProxy`
(QUIC-transported protocols are incompatible with an upstream proxy). -/
def tunnelProtocolSupportsUpstreamProxy (p : String) : Bool :=
  ¬ (p = TUNNEL_PROTOCOL_QUIC_OBFUSCATED_SSH ∨
     p = TUNNEL_PROTOCOL_FRONTED_MEEK_QUIC_OBFUSCATED_SSH)

/-- Modelled from the spec: `protocol.TunnelProtocolRequiresTLS12SessionTickets`. -/
def tunnelProtocolRequiresTLS12SessionTickets (p : String) : Bool :=
  p = TUNNEL_PROTOCOL_UNFRONTED_MEEK_SESSION_TICKET

/-- Modelled from the spec: `protocol.TunnelProtocolRequiresTLS13Support`. -/
def tunnelProtocolRequiresTLS13Support (p : String) : Bool :=
  p = TUNNEL_PROTOCOL_TLS_OBFUSCATED_SSH

/-- Modelled from the spec: `protocol.AllowServerEntrySourceWithUpstreamProxy`
(embedded and exchanged server entries only). -/
def allowServerEntrySourceWithUpstreamProxy (source : String) : Bool :=
  source = "EMBEDDED" ∨ source = "EXCHANGED"

/-- `net.JoinHostPort`: brackets an IPv6 (colon-containing) host. -/
def joinHostPort (host port : String) : String :=
  if host.contains ':' then "[" ++ host ++ "]:" ++ port else host ++ ":" ++ port

/-- The host part of `net.SplitHostPort` on a `host:port` string (the code
ignores the port and the error; on a malformed address Go returns an empty
host, modelled by the "" fallbacks). -/
def splitHostPortHost (s : String) : String :=
  let parts := s.splitOn ":"
  if parts.length ≤ 1 then ""
  else
    let host := String.intercalate ":" parts.dropLast
    if host.startsWith "[" ∧ host.endsWith "]" then (host.drop 1).dropRight 1
    else if host.contains ':' then ""
    else host

/-- Bytes of a string, for hash inputs (`[]byte(s)`). -/
def strBytes (s : String) : List Nat :=
  s.toList.map Char.toNat

/-- `binary.BigEndian.PutUint64`: eight big-endian bytes of a value. -/
def natBE8 (n : Nat) : List Nat :=
  [n / 2 ^ 56 % 256, n / 2 ^ 48 % 256, n / 2 ^ 40 % 256, n / 2 ^ 32 % 256,
   n / 2 ^ 24 % 256, n / 2 ^ 16 % 256, n / 2 ^ 8 % 256, n % 256]

/-- `transforms.ObfuscatorSeedTransformerParameters`: transform specs are
opaque to this code and modelled as `Nat`; the zero struct (as returned by
`makeSeedTransformerParameters` when no spec is selected) has a `none`
spec, matching the Go nil `TransformSpec`. -/
structure ObfuscatorSeedTransformerParameters where
  transformName : String := ""
  transformSpec : Option Nat := none
  transformSeed : Option Nat := none
deriving Repr, DecidableEq

/-- `obfuscator.OSSHPrefixSpec` (the prefix spec is opaque, modelled `Nat`). -/
structure OSSHPrefixSpec where
  name : String := ""
  spec : Option Nat := none
  seed : Option Nat := none
deriving Repr, DecidableEq

/-- `obfuscator.OSSHPrefixSplitConfig`. -/
structure OSSHPrefixSplitConfig where
  seed : Nat := 0
  minDelay : Int := 0
  maxDelay : Int := 0
deriving Repr, DecidableEq

/-- `transforms.HTTPTransformerParameters`. -/
structure HTTPTransformerParameters where
  protocolTransformName : String := ""
  protocolTransformSpec : Option Nat := none
  protocolTransformSeed : Option Nat := none
deriving Repr, DecidableEq

/-- `protocol.ServerEntry`: the fields read by `dialParameters.go`.
`GetDialPortNumber` is modelled as an association list from tunnel
protocol to port (a missing entry is the Go error case). -/
structure ServerEntry where
  ipAddress : String := ""
  localSource : String := ""
  frontingProviderID : String := ""
  configurationVersion : Nat := 0
  localTimestamp : String := ""
  meekServerPort : Nat := 0
  meekFrontingDisableSNI : Bool := false
  meekFrontingAddressesRegex : String := ""
  meekFrontingAddresses : List String := []
  meekFrontingHosts : List String := []
  meekFrontingHost : String := ""
  limitQUICVersions : List String := []
  supportsOnlyQUICv1 : Bool := false
  disableObfuscatedQUICTransforms : Bool := false
  disableOSSHTransforms : Bool := false
  disableOSSHPrefixSpecs : Bool := false
  disableHTTPTransforms : Bool := false
  dialPorts : List (String × Nat) := []
  meekCookieEncryptionPublicKey : String := ""
  meekObfuscatedKey : String := ""
deriving Repr, DecidableEq

/-- The tactics snapshot (`parameters.ParametersAccessor`): the values of
every tactics parameter read by `dialParameters.go`.  Durations are `Int`,
floats are `Rat`; `DisableFrontingProviderQUICVersions` and
`AddFrontingProviderPsiphonFrontingHeader` are labeled parameters,
modelled as association lists from label to value (a missing label is the
empty list, as in the Go accessor).  `replayOSSHPrefixFlag` models the
`ReplayOSSHPrefix` tactic (renamed only to satisfy the identifier rules
of this development). -/
structure TacticsParams where
  tag : String := ""
  replayDialParametersTTL : Int := 0
  replayIgnoreChangedConfigState : Bool := false
  replayBPF : Bool := false
  replaySSH : Bool := false
  replayObfuscatorPadding : Bool := false
  replayFragmentor : Bool := false
  replayTLSProfile : Bool := false
  replayTLSFragmentClientHello : Bool := false
  replayFronting : Bool := false
  replayHostname : Bool := false
  replayQUICVersion : Bool := false
  replayObfuscatedQUIC : Bool := false
  replayObfuscatedQUICNonceTransformer : Bool := false
  replayConjureRegistration : Bool := false
  replayConjureTransport : Bool := false
  replayLivenessTest : Bool := false
  replayUserAgent : Bool := false
  replayAPIRequestPadding : Bool := false
  replayHoldOffTunnel : Bool := false
  replayResolveParameters : Bool := false
  replayHTTPTransformerParameters : Bool := false
  replayOSSHSeedTransformerParameters : Bool := false
  replayOSSHPrefixFlag : Bool := false
  networkLatencyMultiplierMin : Rat := 0
  networkLatencyMultiplierMax : Rat := 0
  restrictFrontingProviderIDs : List String := []
  upstreamProxyAllowAllServerEntrySources : Bool := false
  limitQUICVersions : List String := []
  disableFrontingProviderQUICVersions : List (String × List String) := []
  conjureCachedRegistrationTTL : Int := 0
  conjureAPIRegistrarBidirectionalURL : String := ""
  conjureDecoyRegistrarWidth : Int := 0
  conjureSTUNServerAddresses : List String := []
  conjureLimitTransports : List String := []
  customHostNameLimitProtocols : List String := []
  customHostNameRegexes : List String := []
  tlsFragmentClientHelloLimitProtocols : List String := []
  holdOffTunnelProtocols : List String := []
  holdOffTunnelFrontingProviderIDs : List String := []
  meekDialDomainsOnly : Bool := false
  additionalCustomHeaders : List (String × List String) := []
  osshPrefixSplitMinDelay : Int := 0
  osshPrefixSplitMaxDelay : Int := 0
  osshPrefixEnableFragmentor : Bool := false
  addFrontingProviderPsiphonFrontingHeader : List (String × List String) := []

/-- The `Config` fields read by `dialParameters.go`.  `hasResolver` models
`config.GetResolver() != nil`; `upstreamProxyParsedOk` and
`upstreamProxyScheme` model `common.SafeParseURL(config.UpstreamProxyURL)`. -/
structure Config where
  networkID : String := ""
  disableReplay : Bool := false
  useUpstreamProxy : Bool := false
  upstreamProxyURL : String := ""
  upstreamProxyParsedOk : Bool := false
  upstreamProxyScheme : String := ""
  customHeaders : List (String × List String) := []
  disableSystemRootCAs : Bool := false
  hasResolver : Bool := true
  trustedCACertificatesFilename : String := ""
  dialParametersHash : List Nat := []

/-- Externally defined protocol constants and classifiers that
`dialParameters.go` consumes as opaque sets/predicates
(`protocol.SupportedTLSProfiles`, `protocol.SupportedQUICVersions`,
`protocol.SupportedQUICv1Versions`, `protocol.QUICVersionIsObfuscated`,
`protocol.QUICVersionHasRandomizedClientHello`,
`protocol.QUICVersionUsesPathMTUDiscovery`,
`protocol.SupportedConjureTransports`,
`protocol.ConjureTransportUsesSTUN`). -/
structure ProtocolExt where
  supportedTLSProfiles : List String := []
  supportedQUICVersions : List String := []
  supportedQUICv1Versions : List String := []
  quicVersionIsObfuscated : String → Bool := fun _ => false
  quicVersionHasRandomizedClientHello : String → Bool := fun _ => false
  quicVersionUsesPathMTUDiscovery : String → Bool := fun _ => false
  supportedConjureTransports : List String := []
  conjureTransportUsesSTUN : String → Bool := fun _ => false

/-- One call of `selectHostName`: the random draws and external values it
consumes (`WeightedCoinFlip(CustomHostNameProbability)`,
`values.GetHostName()`, and `regen.GenerateString(regexStrings[choice])`,
whose failure is `none`). -/
structure HostNameOracle where
  customFlip : Bool := false
  cannedHostName : String := ""
  regexChoice : Nat := 0
  regenResult : Option String := none
deriving Repr

/-- One call of `makeSeedTransformerParameters` or
`makeOSSHPrefixSpecParameters`: the coin flip, the fresh seed and the
external `specs.Select` result (name, opaque spec). -/
structure SeedTransformOracle where
  flip : Bool := false
  seed : Nat := 0
  specSelect : Option (String × Nat) := none
deriving Repr

/-- One call of `selectFrontingParameters`: the regex generation result
(`none` is the `regen` error) and the two uniform index draws. -/
structure FrontingOracle where
  regenResult : Option String := none
  addrChoice : Nat := 0
  hostChoice : Nat := 0
deriving Repr

/-- One call of `frontingSpecs.SelectParameters()` for Conjure API
registration (external; `none` is its error). -/
structure FrontingSpecSelection where
  frontingProviderID : String := ""
  frontingDialAddress : String := ""
  sniServerName : String := ""
  verifyServerName : String := ""
  verifyPins : List String := []
  frontingHost : String := ""
deriving Repr, DecidableEq

/-- One call of `makeHTTPTransformerParameters`: the two possible coin
flips, the external `specs.Select` result and the fresh seed. -/
structure HTTPTransformOracle where
  frontedFlip : Bool := false
  directFlip : Bool := false
  specSelect : Option (String × Nat) := none
  seed : Nat := 0
deriving Repr

/-- All random draws and external call results consumed by one execution
of `MakeDialParameters`, one field per call site, in source order.
`prng.NewSeed` failures are environmental and not modelled (seeds are
always available). -/
structure Oracle where
  now : Int := 0
  networkLatencyMultiplier : Rat := 1
  restrictFrontingFlip : Bool := false
  bpfFlip : Bool := false
  bpfProgram : Option (String × List Nat) := none
  sshClientVersion : String := ""
  sshKEXSeed : Nat := 0
  obfuscatorPaddingSeed : Nat := 0
  meekObfuscatorPaddingSeed : Nat := 0
  tlsOSSHObfuscatorPaddingSeed : Nat := 0
  fragmentorSeed : Nat := 0
  conjureDecoyFlip : Bool := false
  frontingSpecSelection : Option FrontingSpecSelection := none
  conjureTransformFlip : Bool := false
  conjureHostName : HostNameOracle := {}
  conjureAPIDelay : Int := 0
  conjureDecoyDelay : Int := 0
  conjureTransportChoice : Nat := 0
  conjureSTUNChoice : Nat := 0
  conjureDTLSFlip : Bool := false
  selectTLSProfileResult : Option (String × String × Option Nat) := none
  noDefaultTLSSessionIDFlip : Bool := false
  frontingOracle : FrontingOracle := {}
  meekHTTPSTransformFlip : Bool := false
  meekHTTPSTransformHostName : HostNameOracle := {}
  meekHTTPSHostHeaderHostName : HostNameOracle := {}
  tlsOSSHTransformFlip : Bool := false
  tlsOSSHHostName : HostNameOracle := {}
  meekHTTPTransformFlip : Bool := false
  meekHTTPHostName : HostNameOracle := {}
  quicSNIHostName : HostNameOracle := {}
  quicVersionChoice : Nat := 0
  quicClientHelloSeed : Nat := 0
  quicPMTUFlip : Bool := false
  obfuscatedQUICPaddingSeed : Nat := 0
  obfuscatedQUICNonceOracle : SeedTransformOracle := {}
  livenessTestSeed : Nat := 0
  apiRequestPaddingSeed : Nat := 0
  makeResolveParametersResult : Option Nat := none
  holdOffFlip : Bool := false
  holdOffDuration : Int := 0
  osshSeedTransformOracle : SeedTransformOracle := {}
  osshPrefixOracle : SeedTransformOracle := {}
  osshSplitSeed : Nat := 0
  httpTransformOracle : HTTPTransformOracle := {}
  userAgentPickFlip : Bool := false
  userAgentValue : String := ""
  tlsFragmentFlip : Bool := false

/-- The subset of `DialConfig` tracked by this embedding (the other fields
are copies of `Config` values, callbacks, and the fragmentor config; only
the assembled custom headers and the prefixed-OSSH fragmentor suppression
carry engine logic). -/
structure DialConfigM where
  customHeaders : List (String × List String) := []
  fragmentorConfigNil : Bool := false
deriving Repr, DecidableEq

/-- The subset of `MeekConfig` tracked by this embedding (the remaining
fields are verbatim copies of `DialParameters` / `ServerEntry` / `Config`
values). -/
structure MeekConfigM where
  mode : String := ""
  dialAddress : String := ""
  useQUIC : Bool := false
  useHTTPS : Bool := false
  sniServerName : String := ""
  hostHeader : String := ""
  addPsiphonFrontingHeader : Bool := false
deriving Repr, DecidableEq

/-- `DialParameters` (the central record).  Field defaults are the Go zero
values of `&DialParameters{}`.  `time.Time` is `Int` with zero value `0`;
seeds and opaque specs are `Nat`; `MeekResolvedIPAddress`, the metrics
sources, `DialDuration` and the resolver pointer are transient external
state and not modelled.  `ResolveParameters` is opaque (`Nat`). -/
structure DialParameters where
  serverEntry : ServerEntry := {}
  networkID : String := ""
  isReplay : Bool := false
  candidateNumber : Int := 0
  establishedTunnelsCount : Int := 0
  isExchanged : Bool := false
  lastUsedTimestamp : Int := 0
  lastUsedConfigStateHash : List Nat := []
  lastUsedServerEntryHash : List Nat := []
  networkLatencyMultiplier : Rat := 0
  tunnelProtocol : String := ""
  directDialAddress : String := ""
  dialPortNumber : String := ""
  upstreamProxyType : String := ""
  upstreamProxyCustomHeaderNames : List String := []
  bpfProgramName : String := ""
  bpfProgramInstructions : List Nat := []
  selectedSSHClientVersion : Bool := false
  sshClientVersion : String := ""
  sshKEXSeed : Option Nat := none
  obfuscatorPaddingSeed : Option Nat := none
  osshObfuscatorSeedTransformerParameters : Option ObfuscatorSeedTransformerParameters := none
  osshPrefixSpec : Option OSSHPrefixSpec := none
  osshPrefixSplitConfig : Option OSSHPrefixSplitConfig := none
  fragmentorSeed : Option Nat := none
  frontingProviderID : String := ""
  meekFrontingDialAddress : String := ""
  meekFrontingHost : String := ""
  meekDialAddress : String := ""
  meekTransformedHostName : Bool := false
  meekSNIServerName : String := ""
  meekVerifyServerName : String := ""
  meekVerifyPins : List String := []
  meekHostHeader : String := ""
  meekObfuscatorPaddingSeed : Option Nat := none
  meekTLSPaddingSize : Int := 0
  tlsOSSHTransformedSNIServerName : Bool := false
  tlsOSSHSNIServerName : String := ""
  tlsOSSHObfuscatorPaddingSeed : Option Nat := none
  selectedUserAgent : Bool := false
  userAgent : String := ""
  selectedTLSProfile : Bool := false
  tlsProfile : String := ""
  noDefaultTLSSessionID : Bool := false
  tlsVersion : String := ""
  randomizedTLSProfileSeed : Option Nat := none
  tlsFragmentClientHello : Bool := false
  quicVersion : String := ""
  quicDialSNIAddress : String := ""
  quicClientHelloSeed : Option Nat := none
  obfuscatedQUICPaddingSeed : Option Nat := none
  obfuscatedQUICNonceTransformerParameters : Option ObfuscatorSeedTransformerParameters := none
  quicDisablePathMTUDiscovery : Bool := false
  conjureCachedRegistrationTTL : Int := 0
  conjureAPIRegistration : Bool := false
  conjureAPIRegistrarBidirectionalURL : String := ""
  conjureAPIRegistrarDelay : Int := 0
  conjureDecoyRegistration : Bool := false
  conjureDecoyRegistrarDelay : Int := 0
  conjureDecoyRegistrarWidth : Int := 0
  conjureTransport : String := ""
  conjureSTUNServerAddress : String := ""
  conjureDTLSEmptyInitialPacket : Bool := false
  livenessTestSeed : Option Nat := none
  apiRequestPaddingSeed : Option Nat := none
  holdOffTunnelDuration : Int := 0
  resolveParameters : Option Nat := none
  httpTransformerParameters : Option HTTPTransformerParameters := none
  dialConfig : Option DialConfigM := none
  meekConfig : Option MeekConfigM := none
deriving Repr, DecidableEq

/-- The full environment of one `MakeDialParameters` call: the function
arguments (`canReplay`, `selectProtocol`, server entry, counters,
`isTactics`), the three tactics snapshots taken during composition
(`p` from the initial `Get()`, `pCustom` from the
`GetCustom(networkLatencyMultiplier)` re-snapshot, `pFresh` from the
fresh `Get()` inside the HTTP-transformer block), the store contents
(`storedDialParams`; a `GetDialParameters` error collapses to `none`,
exactly the code's recovery), the external protocol constants, the
platform (`clientBPFEnabled`), the stdlib `net.ParseIP` test
(`isIPAddress`), the digest (`md5`), and the oracle draws. -/
structure Env where
  p : TacticsParams := {}
  pCustom : TacticsParams := {}
  pFresh : TacticsParams := {}
  serverEntry : ServerEntry := {}
  ext : ProtocolExt := {}
  storedDialParams : Option DialParameters := none
  canReplay : String → Bool := fun _ => true
  selectProtocol : Option String := none
  isTactics : Bool := false
  candidateNumber : Int := 0
  establishedTunnelsCount : Int := 0
  clientBPFEnabled : Bool := false
  isIPAddress : String → Bool := fun _ => false
  md5 : List Nat → List Nat := fun l => l
  oracle : Oracle := {}

/-- `getDialStateHashes` (lines 1410-1448): the config state hash digests
`config.dialParametersHash ∥ tactics tag`, the server entry hash digests
`BigEndian-uint64(ConfigurationVersion) ∥ LocalTimestamp`. -/
def getDialStateHashes (config : Config) (p : TacticsParams) (serverEntry : ServerEntry)
    (md5 : List Nat → List Nat) : List Nat × List Nat :=
  (md5 (config.dialParametersHash ++ strBytes p.tag),
   md5 (natBE8 serverEntry.configurationVersion ++ strBytes serverEntry.localTimestamp))

/-- `currentTimestamp` of lines 244-254: `time.Now()` when the replay TTL
is positive, otherwise the zero time. -/
def dialCurrentTimestamp (env : Env) : Int :=
  if env.p.replayDialParametersTTL > 0 then env.oracle.now else 0

/-- The `configStateHash, serverEntryHash` pair of lines 244-254: computed
only when the replay TTL is positive, otherwise left nil. -/
def dialStateHashPair (config : Config) (env : Env) : List Nat × List Nat :=
  if env.p.replayDialParametersTTL > 0 then
    getDialStateHashes config env.p env.serverEntry env.md5
  else ([], [])

/-- `selectHostName` (lines 1606-1631): canned host name unless custom
host names apply to this protocol, the coin flip succeeds, regexes exist
and regex generation succeeds. -/
def selectHostName (tunnelProtocol : String) (p : TacticsParams) (o : HostNameOracle) : String :=
  if p.customHostNameLimitProtocols.length > 0 ∧
     tunnelProtocol ∉ p.customHostNameLimitProtocols then
    o.cannedHostName
  else if ¬ o.customFlip then o.cannedHostName
  else if p.customHostNameRegexes.length = 0 then o.cannedHostName
  else
    match o.regenResult with
    | none => o.cannedHostName
    | some hostName => hostName

/-- `selectQUICVersion` (lines 1493-1567). -/
def selectQUICVersion (ext : ProtocolExt) (isFronted : Bool) (serverEntry : ServerEntry)
    (p : TacticsParams) (choice : Nat) : String :=
  let limitQUICVersions := p.limitQUICVersions
  let disableQUICVersions : List String :=
    if isFronted then
      if serverEntry.frontingProviderID = "" then
        [QUIC_VERSION_V1, QUIC_VERSION_RANDOMIZED_V1,
         QUIC_VERSION_OBFUSCATED_V1, QUIC_VERSION_DECOY_V1]
      else
        ((p.disableFrontingProviderQUICVersions.lookup serverEntry.frontingProviderID).getD [])
    else []
  let supportedQUICVersions :=
    if serverEntry.supportsOnlyQUICv1 then ext.supportedQUICv1Versions
    else ext.supportedQUICVersions
  let quicVersions := supportedQUICVersions.filter fun quicVersion =>
    ¬ (limitQUICVersions.length > 0 ∧ quicVersion ∉ limitQUICVersions) ∧
    ¬ (serverEntry.limitQUICVersions.length > 0 ∧
       quicVersion ∉ serverEntry.limitQUICVersions) ∧
    ¬ (isFronted ∧ ext.quicVersionIsObfuscated quicVersion) ∧
    quicVersion ∉ disableQUICVersions
  if h : quicVersions.length = 0 then ""
  else quicVersions.get ⟨choice % quicVersions.length, Nat.mod_lt _ (Nat.pos_of_ne_zero h)⟩

/-- `selectConjureTransport` (lines 1765-1789). -/
def selectConjureTransport (ext : ProtocolExt) (p : TacticsParams) (choice : Nat) : String :=
  let limitConjureTransports := p.conjureLimitTransports
  let transports := ext.supportedConjureTransports.filter fun transport =>
    ¬ (limitConjureTransports.length > 0 ∧ transport ∉ limitConjureTransports)
  if h : transports.length = 0 then ""
  else transports.get ⟨choice % transports.length, Nat.mod_lt _ (Nat.pos_of_ne_zero h)⟩

/-- `selectFrontingParameters` (lines 1450-1491): `none` is the error
return (regex generation failure or empty `MeekFrontingAddresses`). -/
def selectFrontingParameters (serverEntry : ServerEntry) (o : FrontingOracle) :
    Option (String × String) :=
  let frontingDialHost? : Option String :=
    if serverEntry.meekFrontingAddressesRegex.length > 0 then o.regenResult
    else if h : serverEntry.meekFrontingAddresses.length = 0 then none
    else some (serverEntry.meekFrontingAddresses.get
      ⟨o.addrChoice % serverEntry.meekFrontingAddresses.length,
       Nat.mod_lt _ (Nat.pos_of_ne_zero h)⟩)
  match frontingDialHost? with
  | none => none
  | some frontingDialHost =>
    let frontingHost :=
      if h : serverEntry.meekFrontingHosts.length > 0 then
        serverEntry.meekFrontingHosts.get
          ⟨o.hostChoice % serverEntry.meekFrontingHosts.length, Nat.mod_lt _ h⟩
      else serverEntry.meekFrontingHost
    some (frontingDialHost, frontingHost)

/-- `selectUserAgentIfUnset` (lines 1569-1584). -/
def selectUserAgentIfUnset (headers : List (String × List String))
    (pickFlip : Bool) (userAgentValue : String) : Bool × String :=
  if (headers.lookup "User-Agent").isNone then
    (true, if pickFlip then userAgentValue else "")
  else (false, "")

/-- Go map assignment `h[k] = v` on an association-list model of
`http.Header` / `map[string][]string`. -/
def setHeader (h : List (String × List String)) (k : String) (v : List String) :
    List (String × List String) :=
  (h.filter fun kv => kv.1 ≠ k) ++ [(k, v)]

/-- `makeDialCustomHeaders` (lines 1586-1604): copy `config.CustomHeaders`,
then overwrite with every entry of the tactics `AdditionalCustomHeaders`. -/
def makeDialCustomHeaders (config : Config) (p : TacticsParams) :
    List (String × List String) :=
  let dialCustomHeaders :=
    config.customHeaders.foldl (fun h kv => setHeader h kv.1 kv.2) []
  p.additionalCustomHeaders.foldl (fun h kv => setHeader h kv.1 kv.2) dialCustomHeaders

/-- `makeHTTPTransformerParameters` (lines 1633-1688); seed generation
cannot fail in this model, so the error return is absent. -/
def makeHTTPTransformerParameters (o : HTTPTransformOracle) (isFronted : Bool) :
    HTTPTransformerParameters :=
  let useTransform := if isFronted then o.frontedFlip else o.directFlip
  if useTransform then
    match o.specSelect with
    | some (name, spec) =>
      { protocolTransformName := name, protocolTransformSpec := some spec,
        protocolTransformSeed := some o.seed }
    | none => {}
  else {}

/-- `makeSeedTransformerParameters` (lines 1690-1718). -/
def makeSeedTransformerParameters (o : SeedTransformOracle) :
    ObfuscatorSeedTransformerParameters :=
  if ¬ o.flip then {}
  else
    match o.specSelect with
    | none => {}
    | some (name, spec) =>
      { transformName := name, transformSpec := some spec, transformSeed := some o.seed }

/-- `makeOSSHPrefixSpecParameters` (lines 1720-1746); the dial-port scope
of `specs.Select` is folded into the oracle's `specSelect`. -/
def makeOSSHPrefixSpecParameters (o : SeedTransformOracle) : OSSHPrefixSpec :=
  if ¬ o.flip then {}
  else
    match o.specSelect with
    | none => {}
    | some (name, spec) => { name := name, spec := some spec, seed := some o.seed }

/-- `makeOSSHPrefixSplitConfig` (lines 1748-1763). -/
def makeOSSHPrefixSplitConfig (p : TacticsParams) (seed : Nat) : OSSHPrefixSplitConfig :=
  { seed := seed, minDelay := p.osshPrefixSplitMinDelay, maxDelay := p.osshPrefixSplitMaxDelay }

/-- The three-way return convention of `MakeDialParameters`:
`ok d` is `(dialParams, nil)`, `skip` is the silent `(nil, nil)` and
`err` is `(nil, error)`. -/
inductive Outcome (α : Type) where
  | ok (a : α)
  | skip
  | err (msg : String)
deriving Repr, DecidableEq

/-- Sequencing of early returns: `skip` and `err` propagate. -/
def Outcome.bind {α β : Type} (x : Outcome α) (f : α → Outcome β) : Outcome β :=
  match x with
  | .ok a => f a
  | .skip => .skip
  | .err msg => .err msg

instance : Bind Outcome := ⟨@Outcome.bind⟩

/-- Lines 221-315: fetch the stored record for `(serverIP, networkID)`,
delete it when it is expired or no longer matches the current state
(conditions (1)-(7)), and discard it in memory only when `DisableReplay`
is set or `canReplay` refuses (conditions (8)-(9)).  Returns the record
retained for replay and the key passed to `DeleteDialParameters` (if it
was called). -/
def replayArbitration (config : Config) (env : Env) :
    Option DialParameters × Option (String × String) :=
  match env.storedDialParams with
  | none => (none, none)
  | some dialParams =>
    let ttl := env.p.replayDialParametersTTL
    if ttl ≤ 0 ∨
       dialParams.lastUsedTimestamp < dialCurrentTimestamp env - ttl ∨
       (¬ env.p.replayIgnoreChangedConfigState ∧
        dialParams.lastUsedConfigStateHash ≠ (dialStateHashPair config env).1) ∨
       dialParams.lastUsedServerEntryHash ≠ (dialStateHashPair config env).2 ∨
       (dialParams.tlsProfile ≠ "" ∧
        dialParams.tlsProfile ∉ env.ext.supportedTLSProfiles) ∨
       (dialParams.quicVersion ≠ "" ∧
        dialParams.quicVersion ∉ env.ext.supportedQUICVersions) ∨
       (dialParams.conjureAPIRegistration ∧
        dialParams.conjureAPIRegistrarBidirectionalURL = "") then
      (none, some (env.serverEntry.ipAddress, config.networkID))
    else if config.disableReplay ∨ ¬ env.canReplay dialParams.tunnelProtocol then
      (none, none)
    else (some dialParams, none)

/-- Lines 333-413: identity fields, exchanged normalization
(`IsExchanged` is cleared; an exchanged record does not count as replay),
timestamp/hash refresh, and the network latency multiplier selection. -/
def initialDialParameters (config : Config) (env : Env)
    (retained : Option DialParameters) : DialParameters :=
  let dialParams0 := retained.getD {}
  let isReplay0 := retained.isSome
  let isExchanged := isReplay0 && dialParams0.isExchanged
  let isReplay := isReplay0 && !isExchanged
  { dialParams0 with
    isExchanged := false
    serverEntry := env.serverEntry
    networkID := config.networkID
    isReplay := isReplay
    candidateNumber := env.candidateNumber
    establishedTunnelsCount := env.establishedTunnelsCount
    lastUsedTimestamp := dialCurrentTimestamp env
    lastUsedConfigStateHash := (dialStateHashPair config env).1
    lastUsedServerEntryHash := (dialStateHashPair config env).2
    networkLatencyMultiplier :=
      if ¬ isReplay ∨
         (dialParams0.networkLatencyMultiplier ≠ 0 ∧
          (dialParams0.networkLatencyMultiplier < env.p.networkLatencyMultiplierMin ∨
           dialParams0.networkLatencyMultiplier > env.p.networkLatencyMultiplierMax)) then
        env.oracle.networkLatencyMultiplier
      else dialParams0.networkLatencyMultiplier }

/-- Lines 415-428: fresh (non-replay, non-exchanged) dials select the
tunnel protocol via `selectProtocol`; no selection skips the candidate. -/
def stepSelectProtocol (env : Env) (isExchanged : Bool) (d : DialParameters) :
    Outcome DialParameters :=
  if ¬ d.isReplay ∧ ¬ isExchanged then
    match env.selectProtocol with
    | none => .skip
    | some selectedProtocol => .ok { d with tunnelProtocol := selectedProtocol }
  else .ok d

/-- Lines 430-450: restricted fronting provider IDs probabilistically
skip the candidate. -/
def stepRestrictFronting (env : Env) (d : DialParameters) : Outcome DialParameters :=
  if tunnelProtocolUsesFrontedMeek d.tunnelProtocol ∧
     d.serverEntry.frontingProviderID ∈ env.pCustom.restrictFrontingProviderIDs then
    if env.oracle.restrictFrontingFlip then .skip else .ok d
  else .ok d

/-- Lines 452-484: upstream proxy compatibility and server-entry source
checks, both silent skips. -/
def stepUpstreamProxy (config : Config) (env : Env) (d : DialParameters) :
    Outcome DialParameters :=
  if config.useUpstreamProxy then
    if ¬ tunnelProtocolSupportsUpstreamProxy d.tunnelProtocol then .skip
    else if ¬ allowServerEntrySourceWithUpstreamProxy d.serverEntry.localSource ∧
            ¬ env.pCustom.upstreamProxyAllowAllServerEntrySources then .skip
    else .ok d
  else .ok d

/-- Lines 486-499: BPF program selection for TCP protocols.  (The source
clears the fields and then overwrites them on a successful `BPFProgram`
read; the branches are flattened here to one record update each.) -/
def stepBPF (env : Env) (d : DialParameters) : Outcome DialParameters :=
  if (¬ d.isReplay ∨ ¬ env.p.replayBPF) ∧ env.clientBPFEnabled ∧
     tunnelProtocolUsesTCP d.tunnelProtocol then
    if env.oracle.bpfFlip then
      match env.oracle.bpfProgram with
      | some (name, rawInstructions) =>
        .ok { d with bpfProgramName := name, bpfProgramInstructions := rawInstructions }
      | none => .ok { d with bpfProgramName := "", bpfProgramInstructions := [] }
    else .ok d
  else .ok d

/-- Lines 501-508: SSH client version and KEX seed. -/
def stepSSH (env : Env) (d : DialParameters) : Outcome DialParameters :=
  if ¬ d.isReplay ∨ ¬ env.p.replaySSH then
    .ok { d with selectedSSHClientVersion := true
                 sshClientVersion := env.oracle.sshClientVersion
                 sshKEXSeed := some env.oracle.sshKEXSeed }
  else .ok d

/-- Lines 510-527: obfuscator padding seeds (base, plus meek or TLS-OSSH
as the protocol demands; branches flattened to one record update each). -/
def stepObfuscatorPadding (env : Env) (d : DialParameters) : Outcome DialParameters :=
  if ¬ d.isReplay ∨ ¬ env.p.replayObfuscatorPadding then
    if tunnelProtocolUsesMeek d.tunnelProtocol then
      .ok { d with obfuscatorPaddingSeed := some env.oracle.obfuscatorPaddingSeed
                   meekObfuscatorPaddingSeed := some env.oracle.meekObfuscatorPaddingSeed }
    else if tunnelProtocolUsesTLSOSSH d.tunnelProtocol then
      .ok { d with obfuscatorPaddingSeed := some env.oracle.obfuscatorPaddingSeed
                   tlsOSSHObfuscatorPaddingSeed :=
                     some env.oracle.tlsOSSHObfuscatorPaddingSeed }
    else .ok { d with obfuscatorPaddingSeed := some env.oracle.obfuscatorPaddingSeed }
  else .ok d

/-- Lines 529-534: fragmentor seed. -/
def stepFragmentor (env : Env) (d : DialParameters) : Outcome DialParameters :=
  if ¬ d.isReplay ∨ ¬ env.p.replayFragmentor then
    .ok { d with fragmentorSeed := some env.oracle.fragmentorSeed }
  else .ok d

/-- Lines 536-624: Conjure registration.  Exactly one of API or decoy
registration is selected (decoy wins the coin flip when both are
enabled); API registration selects a fronting spec, requires CA
verification, sets the meek dial address to `host:443` and may transform
the SNI; neither configured registrar is a hard error.  As in the source
(line 618), the decoy branch stores its delay in
`conjureAPIRegistrarDelay`. -/
def stepConjureRegistration (config : Config) (env : Env) (d : DialParameters) :
    Outcome DialParameters :=
  if (¬ d.isReplay ∨ ¬ env.p.replayConjureRegistration) ∧
     tunnelProtocolUsesConjure d.tunnelProtocol then
    let apiURL := env.pCustom.conjureAPIRegistrarBidirectionalURL
    let decoyWidth := env.pCustom.conjureDecoyRegistrarWidth
    let useAPI := apiURL ≠ "" ∧
      ¬ (apiURL ≠ "" ∧ decoyWidth ≠ 0 ∧ env.oracle.conjureDecoyFlip)
    if useAPI then
      match env.oracle.frontingSpecSelection with
      | none => .err "SelectParameters failed"
      | some fs =>
        if config.disableSystemRootCAs then
          .err "TLS certificates must be verified in Conjure API registration"
        else if fs.sniServerName ≠ "" ∧ env.oracle.conjureTransformFlip then
          .ok { d with
            conjureCachedRegistrationTTL := env.pCustom.conjureCachedRegistrationTTL
            conjureAPIRegistration := true
            conjureDecoyRegistration := decoyWidth ≠ 0
            conjureAPIRegistrarBidirectionalURL := apiURL
            frontingProviderID := fs.frontingProviderID
            meekFrontingDialAddress := fs.frontingDialAddress
            meekSNIServerName :=
              selectHostName d.tunnelProtocol env.pCustom env.oracle.conjureHostName
            meekTransformedHostName := true
            meekVerifyServerName := fs.verifyServerName
            meekVerifyPins := fs.verifyPins
            meekFrontingHost := fs.frontingHost
            meekDialAddress := joinHostPort fs.frontingDialAddress "443"
            meekHostHeader := fs.frontingHost
            conjureAPIRegistrarDelay := env.oracle.conjureAPIDelay }
        else
          .ok { d with
            conjureCachedRegistrationTTL := env.pCustom.conjureCachedRegistrationTTL
            conjureAPIRegistration := true
            conjureDecoyRegistration := decoyWidth ≠ 0
            conjureAPIRegistrarBidirectionalURL := apiURL
            frontingProviderID := fs.frontingProviderID
            meekFrontingDialAddress := fs.frontingDialAddress
            meekSNIServerName := fs.sniServerName
            meekVerifyServerName := fs.verifyServerName
            meekVerifyPins := fs.verifyPins
            meekFrontingHost := fs.frontingHost
            meekDialAddress := joinHostPort fs.frontingDialAddress "443"
            meekHostHeader := fs.frontingHost
            conjureAPIRegistrarDelay := env.oracle.conjureAPIDelay }
    else if decoyWidth ≠ 0 then
      .ok { d with
        conjureCachedRegistrationTTL := env.pCustom.conjureCachedRegistrationTTL
        conjureAPIRegistration := false
        conjureDecoyRegistration := true
        conjureDecoyRegistrarWidth := decoyWidth
        conjureAPIRegistrarDelay := env.oracle.conjureDecoyDelay }
    else .err "no Conjure registrar configured"
  else .ok d

/-- Lines 626-644: Conjure transport selection; STUN-based transports
need a STUN server (hard error when none configured) and flip the DTLS
empty-initial-packet probability. -/
def stepConjureTransport (env : Env) (d : DialParameters) : Outcome DialParameters :=
  if (¬ d.isReplay ∨ ¬ env.p.replayConjureTransport) ∧
     tunnelProtocolUsesConjure d.tunnelProtocol then
    let transport :=
      selectConjureTransport env.ext env.pCustom env.oracle.conjureTransportChoice
    if env.ext.conjureTransportUsesSTUN transport then
      let stunServerAddresses := env.pCustom.conjureSTUNServerAddresses
      if h : stunServerAddresses.length = 0 then
        .err "no Conjure STUN servers addresses configured"
      else
        .ok { d with
          conjureTransport := transport
          conjureSTUNServerAddress := stunServerAddresses.get
            ⟨env.oracle.conjureSTUNChoice % stunServerAddresses.length,
             Nat.mod_lt _ (Nat.pos_of_ne_zero h)⟩
          conjureDTLSEmptyInitialPacket := env.oracle.conjureDTLSFlip }
    else .ok { d with conjureTransport := transport }
  else .ok d

/-- Lines 646-674: TLS profile selection for TLS-consuming modes (meek
HTTPS, TLS-OSSH, or Conjure API registration).  `SelectTLSProfile` is
external; the required-profile check is a hard error. -/
def stepTLSProfile (env : Env) (d : DialParameters) : Outcome DialParameters :=
  let usingTLS := tunnelProtocolUsesMeekHTTPS d.tunnelProtocol ∨
    tunnelProtocolUsesTLSOSSH d.tunnelProtocol ∨ d.conjureAPIRegistration
  if (¬ d.isReplay ∨ ¬ env.p.replayTLSProfile) ∧ usingTLS then
    let requireTLS12SessionTickets :=
      tunnelProtocolRequiresTLS12SessionTickets d.tunnelProtocol
    let requireTLS13Support := tunnelProtocolRequiresTLS13Support d.tunnelProtocol
    match env.oracle.selectTLSProfileResult with
    | none => .err "SelectTLSProfile failed"
    | some (tlsProfile, tlsVersion, randomizedSeed) =>
      if tlsProfile = "" ∧ (requireTLS12SessionTickets ∨ requireTLS13Support) then
        .err "required TLS profile not found"
      else
        .ok { d with selectedTLSProfile := true, tlsProfile := tlsProfile,
                     tlsVersion := tlsVersion, randomizedTLSProfileSeed := randomizedSeed,
                     noDefaultTLSSessionID := env.oracle.noDefaultTLSSessionIDFlip }
  else .ok d

/-- Lines 676-686: fronting provider ID and fronting dial address / host
for fronted meek. -/
def stepFrontingParameters (env : Env) (d : DialParameters) : Outcome DialParameters :=
  if (¬ d.isReplay ∨ ¬ env.p.replayFronting) ∧
     tunnelProtocolUsesFrontedMeek d.tunnelProtocol then
    match selectFrontingParameters env.serverEntry env.oracle.frontingOracle with
    | none => .err "selectFrontingParameters failed"
    | some (frontingDialAddress, frontingHost) =>
      .ok { d with frontingProviderID := env.serverEntry.frontingProviderID,
                   meekFrontingDialAddress := frontingDialAddress,
                   meekFrontingHost := frontingHost }
  else .ok d

/-- Lines 688-746: hostname/SNI selection per protocol family.  (The
source builds the host header from a `hostname` local; the branches are
flattened to one record update each, with the `meekServerPort` dispatch
folded into the header value.) -/
def stepHostname (env : Env) (d : DialParameters) : Outcome DialParameters :=
  if ¬ d.isReplay ∨ ¬ env.p.replayHostname then
    if tunnelProtocolUsesMeekHTTPS d.tunnelProtocol ∨
       tunnelProtocolUsesFrontedMeekQUIC d.tunnelProtocol then
      if env.oracle.meekHTTPSTransformFlip then
        let hostname :=
          selectHostName d.tunnelProtocol env.pCustom env.oracle.meekHTTPSTransformHostName
        .ok { d with
          meekSNIServerName := hostname
          meekTransformedHostName := true
          meekHostHeader :=
            if env.serverEntry.meekServerPort = 443 then hostname
            else joinHostPort hostname (toString env.serverEntry.meekServerPort) }
      else
        let hostname :=
          selectHostName d.tunnelProtocol env.pCustom env.oracle.meekHTTPSHostHeaderHostName
        .ok { d with
          meekSNIServerName := ""
          meekHostHeader :=
            if env.serverEntry.meekServerPort = 443 then hostname
            else joinHostPort hostname (toString env.serverEntry.meekServerPort) }
    else if tunnelProtocolUsesTLSOSSH d.tunnelProtocol then
      if env.oracle.tlsOSSHTransformFlip then
        .ok { d with
          tlsOSSHSNIServerName :=
            selectHostName d.tunnelProtocol env.pCustom env.oracle.tlsOSSHHostName
          tlsOSSHTransformedSNIServerName := true }
      else .ok { d with tlsOSSHSNIServerName := "" }
    else if tunnelProtocolUsesMeekHTTP d.tunnelProtocol then
      if env.oracle.meekHTTPTransformFlip then
        let hostname :=
          selectHostName d.tunnelProtocol env.pCustom env.oracle.meekHTTPHostName
        .ok { d with
          meekTransformedHostName := true
          meekHostHeader :=
            if env.serverEntry.meekServerPort = 80 then hostname
            else joinHostPort hostname (toString env.serverEntry.meekServerPort) }
      else
        let hostname := env.serverEntry.ipAddress
        .ok { d with
          meekHostHeader :=
            if env.serverEntry.meekServerPort = 80 then hostname
            else joinHostPort hostname (toString env.serverEntry.meekServerPort) }
    else if tunnelProtocolUsesQUIC d.tunnelProtocol then
      .ok { d with quicDialSNIAddress :=
        selectHostName d.tunnelProtocol env.pCustom env.oracle.quicSNIHostName }
    else .ok d
  else .ok d

/-- Lines 748-773: QUIC version selection; an empty selection silently
skips the candidate. -/
def stepQUICVersion (env : Env) (d : DialParameters) : Outcome DialParameters :=
  if (¬ d.isReplay ∨ ¬ env.p.replayQUICVersion) ∧
     tunnelProtocolUsesQUIC d.tunnelProtocol then
    let isFronted := tunnelProtocolUsesFrontedMeekQUIC d.tunnelProtocol
    let quicVersion :=
      selectQUICVersion env.ext isFronted env.serverEntry env.pCustom
        env.oracle.quicVersionChoice
    if quicVersion = "" then .skip
    else if env.ext.quicVersionHasRandomizedClientHello quicVersion then
      .ok { d with quicVersion := quicVersion
                   quicClientHelloSeed := some env.oracle.quicClientHelloSeed
                   quicDisablePathMTUDiscovery :=
                     env.ext.quicVersionUsesPathMTUDiscovery quicVersion ∧
                     env.oracle.quicPMTUFlip }
    else
      .ok { d with quicVersion := quicVersion
                   quicDisablePathMTUDiscovery :=
                     env.ext.quicVersionUsesPathMTUDiscovery quicVersion ∧
                     env.oracle.quicPMTUFlip }
  else .ok d

/-- Lines 775-782: obfuscated QUIC padding seed. -/
def stepObfuscatedQUICPadding (env : Env) (d : DialParameters) : Outcome DialParameters :=
  if (¬ d.isReplay ∨ ¬ env.p.replayObfuscatedQUIC) ∧
     env.ext.quicVersionIsObfuscated d.quicVersion then
    .ok { d with obfuscatedQUICPaddingSeed := some env.oracle.obfuscatedQUICPaddingSeed }
  else .ok d

/-- Lines 784-807: obfuscated QUIC nonce transformer, subject to the
server-entry opt-out. -/
def stepObfuscatedQUICNonce (env : Env) (d : DialParameters) : Outcome DialParameters :=
  if env.ext.quicVersionIsObfuscated d.quicVersion then
    if env.serverEntry.disableObfuscatedQUICTransforms then
      .ok { d with obfuscatedQUICNonceTransformerParameters := none }
    else if ¬ d.isReplay ∨ ¬ env.p.replayObfuscatedQUICNonceTransformer then
      let params := makeSeedTransformerParameters env.oracle.obfuscatedQUICNonceOracle
      if params.transformSpec.isSome then
        .ok { d with obfuscatedQUICNonceTransformerParameters := some params }
      else
        .ok { d with obfuscatedQUICNonceTransformerParameters := none }
    else .ok d
  else .ok d

/-- Lines 809-816: liveness test seed (generated unconditionally on fresh
dials, as the source TODO notes). -/
def stepLivenessTest (env : Env) (d : DialParameters) : Outcome DialParameters :=
  if ¬ d.isReplay ∨ ¬ env.p.replayLivenessTest then
    .ok { d with livenessTestSeed := some env.oracle.livenessTestSeed }
  else .ok d

/-- Lines 818-823: API request padding seed. -/
def stepAPIRequestPadding (env : Env) (d : DialParameters) : Outcome DialParameters :=
  if ¬ d.isReplay ∨ ¬ env.p.replayAPIRequestPadding then
    .ok { d with apiRequestPaddingSeed := some env.oracle.apiRequestPaddingSeed }
  else .ok d

/-- Lines 825-844: resolve parameters, only when the dial will resolve a
domain (fronted meek or Conjure API registration with a non-IP fronting
dial address). -/
def stepResolveParameters (env : Env) (d : DialParameters) : Outcome DialParameters :=
  let useResolver := (tunnelProtocolUsesFrontedMeek d.tunnelProtocol ∨
    d.conjureAPIRegistration) ∧ ¬ env.isIPAddress d.meekFrontingDialAddress
  if (¬ d.isReplay ∨ ¬ env.p.replayResolveParameters) ∧ useResolver then
    match env.oracle.makeResolveParametersResult with
    | none => .err "MakeResolveParameters failed"
    | some resolveParams => .ok { d with resolveParameters := some resolveParams }
  else .ok d

/-- Lines 846-864: hold-off tunnel duration. -/
def stepHoldOffTunnel (env : Env) (d : DialParameters) : Outcome DialParameters :=
  if ¬ d.isReplay ∨ ¬ env.p.replayHoldOffTunnel then
    if d.tunnelProtocol ∈ env.pCustom.holdOffTunnelProtocols ∨
       (tunnelProtocolUsesFrontedMeek d.tunnelProtocol ∧
        d.frontingProviderID ∈ env.pCustom.holdOffTunnelFrontingProviderIDs) then
      if env.oracle.holdOffFlip then
        .ok { d with holdOffTunnelDuration := env.oracle.holdOffDuration }
      else .ok d
    else .ok d
  else .ok d

/-- Lines 870-890 (inside the OSSH-only block of lines 866-928): the OSSH
obfuscator seed transformer, subject to the server-entry opt-out. -/
def osshSeedTransformerField (env : Env) (d : DialParameters) : DialParameters :=
  if env.serverEntry.disableOSSHTransforms then
    { d with osshObfuscatorSeedTransformerParameters := none }
  else if ¬ d.isReplay ∨ ¬ env.p.replayOSSHSeedTransformerParameters then
    if (makeSeedTransformerParameters env.oracle.osshSeedTransformOracle).transformSpec.isSome then
      { d with osshObfuscatorSeedTransformerParameters := some (makeSeedTransformerParameters env.oracle.osshSeedTransformOracle) }
    else
      { d with osshObfuscatorSeedTransformerParameters := none }
  else d

/-- Lines 892-919: the OSSH prefix spec and split config, subject to the
server-entry opt-out; the dial-port lookup can fail (hard error). -/
def osshPrefixFields (env : Env) (d : DialParameters) : Outcome DialParameters :=
  if env.serverEntry.disableOSSHPrefixSpecs then
    .ok { d with osshPrefixSpec := none, osshPrefixSplitConfig := none }
  else if ¬ d.isReplay ∨ ¬ env.p.replayOSSHPrefixFlag then
    match env.serverEntry.dialPorts.lookup d.tunnelProtocol with
    | none => .err "GetDialPortNumber failed"
    | some _ =>
      if (makeOSSHPrefixSpecParameters env.oracle.osshPrefixOracle).spec.isSome then
        .ok { d with
          osshPrefixSpec := some (makeOSSHPrefixSpecParameters env.oracle.osshPrefixOracle)
          osshPrefixSplitConfig :=
            some (makeOSSHPrefixSplitConfig env.pCustom env.oracle.osshSplitSeed) }
      else
        .ok { d with osshPrefixSpec := none, osshPrefixSplitConfig := none }
  else .ok d

/-- Lines 921-926: a selected OSSH prefix supersedes the seed transformer. -/
def osshPrefixSupersede (d : DialParameters) : DialParameters :=
  if d.osshPrefixSpec.isSome then
    { d with osshObfuscatorSeedTransformerParameters := none }
  else d

/-- Lines 866-928: OSSH seed transformer and prefix spec, applied only to
the plain OSSH tunnel protocol. -/
def stepOSSHExtras (env : Env) (d : DialParameters) : Outcome DialParameters :=
  if d.tunnelProtocol = TUNNEL_PROTOCOL_OBFUSCATED_SSH then
    (osshPrefixFields env (osshSeedTransformerField env d)).bind fun d2 =>
      .ok (osshPrefixSupersede d2)
  else .ok d

/-- Lines 930-951: HTTP transformer for meek-HTTP protocols, subject to
the server-entry opt-out.  The source takes a fresh tactics snapshot for
this call (line 940), modelled by `pFresh`. -/
def stepHTTPTransformer (env : Env) (d : DialParameters) : Outcome DialParameters :=
  if tunnelProtocolUsesMeekHTTP d.tunnelProtocol then
    if env.serverEntry.disableHTTPTransforms then
      .ok { d with httpTransformerParameters := none }
    else if ¬ d.isReplay ∨ ¬ env.p.replayHTTPTransformerParameters then
      let isFronted := tunnelProtocolUsesFrontedMeek d.tunnelProtocol
      let params := makeHTTPTransformerParameters env.oracle.httpTransformOracle isFronted
      if params.protocolTransformSpec.isSome then
        .ok { d with httpTransformerParameters := some params }
      else
        .ok { d with httpTransformerParameters := none }
    else .ok d
  else .ok d

/-- Lines 953-1010: deterministic dial-address assembly, dispatching on
the tunnel protocol; an unknown protocol is a hard error. -/
def stepDialAddress (env : Env) (d : DialParameters) : Outcome DialParameters :=
  match env.serverEntry.dialPorts.lookup d.tunnelProtocol with
  | none => .err "GetDialPortNumber failed"
  | some dialPortNumber =>
    let portStr := toString dialPortNumber
    if d.tunnelProtocol = TUNNEL_PROTOCOL_SSH ∨
       d.tunnelProtocol = TUNNEL_PROTOCOL_OBFUSCATED_SSH ∨
       d.tunnelProtocol = TUNNEL_PROTOCOL_TAPDANCE_OBFUSCATED_SSH ∨
       d.tunnelProtocol = TUNNEL_PROTOCOL_CONJURE_OBFUSCATED_SSH ∨
       d.tunnelProtocol = TUNNEL_PROTOCOL_QUIC_OBFUSCATED_SSH ∨
       d.tunnelProtocol = TUNNEL_PROTOCOL_TLS_OBFUSCATED_SSH then
      .ok { d with dialPortNumber := portStr
                   directDialAddress := joinHostPort env.serverEntry.ipAddress portStr }
    else if d.tunnelProtocol = TUNNEL_PROTOCOL_FRONTED_MEEK ∨
            d.tunnelProtocol = TUNNEL_PROTOCOL_FRONTED_MEEK_QUIC_OBFUSCATED_SSH then
      if env.serverEntry.meekFrontingDisableSNI then
        .ok { d with dialPortNumber := portStr
                     meekDialAddress := joinHostPort d.meekFrontingDialAddress portStr
                     meekHostHeader := d.meekFrontingHost
                     meekSNIServerName := "", meekTransformedHostName := false }
      else if ¬ d.meekTransformedHostName then
        .ok { d with dialPortNumber := portStr
                     meekDialAddress := joinHostPort d.meekFrontingDialAddress portStr
                     meekHostHeader := d.meekFrontingHost
                     meekSNIServerName := d.meekFrontingDialAddress }
      else
        .ok { d with dialPortNumber := portStr
                     meekDialAddress := joinHostPort d.meekFrontingDialAddress portStr
                     meekHostHeader := d.meekFrontingHost }
    else if d.tunnelProtocol = TUNNEL_PROTOCOL_FRONTED_MEEK_HTTP then
      .ok { d with dialPortNumber := portStr
                   meekDialAddress := joinHostPort d.meekFrontingDialAddress portStr
                   meekHostHeader := d.meekFrontingHost
                   meekTransformedHostName := false }
    else if d.tunnelProtocol = TUNNEL_PROTOCOL_UNFRONTED_MEEK then
      .ok { d with dialPortNumber := portStr
                   meekDialAddress := joinHostPort env.serverEntry.ipAddress portStr }
    else if d.tunnelProtocol = TUNNEL_PROTOCOL_UNFRONTED_MEEK_HTTPS ∨
            d.tunnelProtocol = TUNNEL_PROTOCOL_UNFRONTED_MEEK_SESSION_TICKET then
      if ¬ d.meekTransformedHostName then
        .ok { d with dialPortNumber := portStr
                     meekDialAddress := joinHostPort env.serverEntry.ipAddress portStr
                     meekSNIServerName := env.serverEntry.ipAddress }
      else
        .ok { d with dialPortNumber := portStr
                     meekDialAddress := joinHostPort env.serverEntry.ipAddress portStr }
    else .err "unknown tunnel protocol"

/-- Lines 1012-1029: for meek protocols, `MeekDialDomainsOnly` skips IP
dial addresses, and an IP-literal `MeekSNIServerName` is blanked so stats
record the SNI actually sent. -/
def stepMeekAddressChecks (env : Env) (d : DialParameters) : Outcome DialParameters :=
  if tunnelProtocolUsesMeek d.tunnelProtocol then
    let host := splitHostPortHost d.meekDialAddress
    if env.pCustom.meekDialDomainsOnly ∧ env.isIPAddress host then .skip
    else if env.isIPAddress d.meekSNIServerName then
      .ok { d with meekSNIServerName := "" }
    else .ok d
  else .ok d

/-- Lines 1031-1055: TLS ClientHello fragmentation, decided after the SNI
is final and only when a non-IP SNI will be on the wire. -/
def stepTLSFragmentClientHello (env : Env) (d : DialParameters) : Outcome DialParameters :=
  let usingTLS := tunnelProtocolUsesMeekHTTPS d.tunnelProtocol ∨
    tunnelProtocolUsesTLSOSSH d.tunnelProtocol ∨ d.conjureAPIRegistration
  if (¬ d.isReplay ∨ ¬ env.p.replayTLSFragmentClientHello) ∧ usingTLS then
    let limitProtocols := env.pCustom.tlsFragmentClientHelloLimitProtocols
    if limitProtocols.length = 0 ∨ d.tunnelProtocol ∈ limitProtocols then
      let usingSNI :=
        if d.tlsOSSHSNIServerName ≠ "" then ¬ env.isIPAddress d.tlsOSSHSNIServerName
        else if d.meekSNIServerName ≠ "" then ¬ env.isIPAddress d.meekSNIServerName
        else False
      if usingSNI then
        .ok { d with tlsFragmentClientHello := env.oracle.tlsFragmentFlip }
      else .ok d
    else .ok d
  else .ok d

/-- Lines 1059-1065: the upstream proxy scheme, recorded for metrics. -/
def upstreamProxyTypeField (config : Config) (d : DialParameters) : DialParameters :=
  if config.useUpstreamProxy ∧ config.upstreamProxyParsedOk then
    { d with upstreamProxyType := config.upstreamProxyScheme }
  else d

/-- Lines 1073-1075: User-Agent selection (fresh or per the
`ReplayUserAgent` flag). -/
def userAgentField (env : Env) (headers : List (String × List String))
    (d : DialParameters) : DialParameters :=
  if ¬ d.isReplay ∨ ¬ env.p.replayUserAgent then
    { d with
      selectedUserAgent := (selectUserAgentIfUnset headers
        env.oracle.userAgentPickFlip env.oracle.userAgentValue).1
      userAgent := (selectUserAgentIfUnset headers
        env.oracle.userAgentPickFlip env.oracle.userAgentValue).2 }
  else d

/-- Lines 1069-1081: for meek, HTTP upstream proxy, or Conjure API
registration dials, select the User-Agent and set it on the combined
headers. -/
def userAgentHeaders (env : Env) (headers : List (String × List String))
    (d : DialParameters) : DialParameters × List (String × List String) :=
  if tunnelProtocolUsesMeek d.tunnelProtocol ∨ d.upstreamProxyType = "http" ∨
     d.conjureAPIRegistration then
    if (userAgentField env headers d).selectedUserAgent then
      (userAgentField env headers d,
       setHeader headers "User-Agent" [(userAgentField env headers d).userAgent])
    else (userAgentField env headers d, headers)
  else (d, headers)

/-- Lines 1083-1094: the reported custom header names (the User-Agent
name is omitted when its value was selected here). -/
def headerNamesField (config : Config) (headers : List (String × List String))
    (d : DialParameters) : DialParameters :=
  if config.customHeaders.length > 0 then
    { d with upstreamProxyCustomHeaderNames := (headers.filter fun kv => ¬ (kv.1 = "User-Agent" ∧ d.selectedUserAgent)).map Prod.fst }
  else d

/-- Lines 1118-1140: the `DialConfig` assembly (tracked subset: combined
custom headers, and the fragmentor suppression for prefixed OSSH). -/
def dialConfigField (env : Env) (headers : List (String × List String))
    (d : DialParameters) : DialParameters :=
  { d with dialConfig := some {
      customHeaders := headers
      fragmentorConfigNil :=
        ¬ env.pCustom.osshPrefixEnableFragmentor ∧ d.osshPrefixSpec.isSome } }

/-- Lines 1146-1206: the `MeekConfig` assembly (tracked subset) for meek
or Conjure-API dials. -/
def meekConfigField (env : Env) (d : DialParameters) : DialParameters :=
  if tunnelProtocolUsesMeek d.tunnelProtocol ∨ d.conjureAPIRegistration then
    { d with meekConfig := some {
        mode :=
          if env.isTactics then "ObfuscatedRoundTrip"
          else if d.conjureAPIRegistration then "PlaintextRoundTrip"
          else "Relay"
        dialAddress := d.meekDialAddress
        useQUIC := tunnelProtocolUsesFrontedMeekQUIC d.tunnelProtocol
        useHTTPS := tunnelProtocolUsesMeekHTTPS d.tunnelProtocol ∨
          tunnelProtocolUsesTLSOSSH d.tunnelProtocol ∨ d.conjureAPIRegistration
        sniServerName := d.meekSNIServerName
        hostHeader := d.meekHostHeader
        addPsiphonFrontingHeader := d.frontingProviderID ≠ "" ∧
          d.tunnelProtocol ∈ ((env.pCustom.addFrontingProviderPsiphonFrontingHeader.lookup
            d.frontingProviderID).getD []) } }
  else d

/-- Lines 1057-1208: upstream proxy metrics fields, combined custom
headers, User-Agent selection, reported header names, and the
`DialConfig` / `MeekConfig` assembly. -/
def stepHeadersAndConfigs (config : Config) (env : Env) (d : DialParameters) :
    Outcome DialParameters :=
  let d1 := upstreamProxyTypeField config d
  let headers0 := makeDialCustomHeaders config env.pCustom
  let d2 := (userAgentHeaders env headers0 d1).1
  let headers1 := (userAgentHeaders env headers0 d1).2
  .ok (meekConfigField env (dialConfigField env headers1 (headerNamesField config headers1 d2)))

/-- Lines 333-1208: the composition phase of `MakeDialParameters`, run on
the record retained by the replay arbitration (or a fresh zero record).
The missing-resolver check (lines 341-344) is the only early hard error
before the step pipeline. -/
def composeDialParameters (config : Config) (env : Env)
    (retained : Option DialParameters) : Outcome DialParameters :=
  if ¬ config.hasResolver then .err "missing resolver"
  else
    let isExchanged := retained.isSome && (retained.getD {}).isExchanged
    stepSelectProtocol env isExchanged (initialDialParameters config env retained) >>=
    stepRestrictFronting env >>=
    stepUpstreamProxy config env >>=
    stepBPF env >>=
    stepSSH env >>=
    stepObfuscatorPadding env >>=
    stepFragmentor env >>=
    stepConjureRegistration config env >>=
    stepConjureTransport env >>=
    stepTLSProfile env >>=
    stepFrontingParameters env >>=
    stepHostname env >>=
    stepQUICVersion env >>=
    stepObfuscatedQUICPadding env >>=
    stepObfuscatedQUICNonce env >>=
    stepLivenessTest env >>=
    stepAPIRequestPadding env >>=
    stepResolveParameters env >>=
    stepHoldOffTunnel env >>=
    stepOSSHExtras env >>=
    stepHTTPTransformer env >>=
    stepDialAddress env >>=
    stepMeekAddressChecks env >>=
    stepTLSFragmentClientHello env >>=
    stepHeadersAndConfigs config env

/-- The prefix of the composition through the hostname step (lines
415-746), i.e. everything that runs before the QUIC version selection;
used to state the silent-skip property of an empty QUIC selection. -/
def composeThroughHostname (config : Config) (env : Env)
    (retained : Option DialParameters) : Outcome DialParameters :=
  let isExchanged := retained.isSome && (retained.getD {}).isExchanged
  stepSelectProtocol env isExchanged (initialDialParameters config env retained) >>=
  stepRestrictFronting env >>=
  stepUpstreamProxy config env >>=
  stepBPF env >>=
  stepSSH env >>=
  stepObfuscatorPadding env >>=
  stepFragmentor env >>=
  stepConjureRegistration config env >>=
  stepConjureTransport env >>=
  stepTLSProfile env >>=
  stepFrontingParameters env >>=
  stepHostname env

/-- `MakeDialParameters` (lines 183-1209).  The second component is
the key passed to `DeleteDialParameters` when the stored record was
invalidated (the function performs no other store writes). -/
def MakeDialParameters (config : Config) (env : Env) :
    Outcome DialParameters × Option (String × String) :=
  let arbitration := replayArbitration config env
  (composeDialParameters config env arbitration.1, arbitration.2)

/-- `DialParameters.Succeeded` (lines 1268-1280): the
`SetDialParameters(ServerEntry.IpAddress, NetworkID, dialParams)` write,
or `none` when the zero `LastUsedTimestamp` suppresses persistence. -/
def Succeeded (dialParams : DialParameters) : Option (String × String × DialParameters) :=
  if dialParams.lastUsedTimestamp = 0 then none
  else some (dialParams.serverEntry.ipAddress, dialParams.networkID, dialParams)

/-- `DialParameters.Failed` (lines 1282-1306): the
`DeleteDialParameters(ServerEntry.IpAddress, NetworkID)` key, or `none`.
`retainFlip` is the outcome of
`WeightedCoinFlip(ReplayRetainFailedProbability)`. -/
def Failed (dialParams : DialParameters) (retainFlip : Bool) : Option (String × String) :=
  if dialParams.isReplay ∧ ¬ retainFlip then
    some (dialParams.serverEntry.ipAddress, dialParams.networkID)
  else none

/-- `getTLSVersionForMetrics` (lines 1312-1318). -/
def getTLSVersionForMetrics (tlsVersion : String) (noDefaultTLSSessionID : Bool) : String :=
  if noDefaultTLSSessionID then tlsVersion ++ "-no_def_id" else tlsVersion

/-- `DialParameters.GetNetworkType` (lines 1248-1266). -/
def GetNetworkType (dialParams : DialParameters) : String :=
  if dialParams.networkID.startsWith "VPN" then "VPN"
  else if dialParams.networkID.startsWith "WIFI" then "WIFI"
  else if dialParams.networkID.startsWith "MOBILE" then "MOBILE"
  else "UNKNOWN"

/-- `ExchangedDialParameters` (lines 1358-1360). -/
structure ExchangedDialParameters where
  tunnelProtocol : String := ""
deriving Repr, DecidableEq

/-- `NewExchangedDialParameters` (lines 1366-1370). -/
def NewExchangedDialParameters (dialParams : DialParameters) : ExchangedDialParameters :=
  { tunnelProtocol := dialParams.tunnelProtocol }

/-- `ExchangedDialParameters.MakeDialParameters` (lines 1388-1402): the
partially initialized record stored after an exchange import. -/
def ExchangedDialParameters.MakeDialParameters (exchanged : ExchangedDialParameters)
    (config : Config) (p : TacticsParams) (serverEntry : ServerEntry)
    (now : Int) (md5 : List Nat → List Nat) : DialParameters :=
  let hashes := getDialStateHashes config p serverEntry md5
  { isExchanged := true
    lastUsedTimestamp := now
    lastUsedConfigStateHash := hashes.1
    lastUsedServerEntryHash := hashes.2
    tunnelProtocol := exchanged.tunnelProtocol }

/-- Spec-side predicate (refinement target), following §4.F of the spec
and claim C1 word for word: the nine replay-eligibility conditions for a
stored record `R` against the current `(config, tactics, serverEntry)`. -/
def replayEligible (config : Config) (env : Env) (R : DialParameters) : Bool :=
  let currentHashes := getDialStateHashes config env.p env.serverEntry env.md5
  decide (0 < env.p.replayDialParametersTTL) &&
  decide (env.oracle.now - R.lastUsedTimestamp ≤ env.p.replayDialParametersTTL) &&
  decide (R.lastUsedServerEntryHash = currentHashes.2) &&
  (decide (R.lastUsedConfigStateHash = currentHashes.1) ||
   env.p.replayIgnoreChangedConfigState) &&
  (decide (R.tlsProfile = "") || decide (R.tlsProfile ∈ env.ext.supportedTLSProfiles)) &&
  (decide (R.quicVersion = "") || decide (R.quicVersion ∈ env.ext.supportedQUICVersions)) &&
  !(R.conjureAPIRegistration && decide (R.conjureAPIRegistrarBidirectionalURL = "")) &&
  !config.disableReplay &&
  env.canReplay R.tunnelProtocol

/-- Spec-side predicate, following §4.F / claim C2: conditions (1)-(7)
(the retention conditions whose failure deletes the stored record). -/
def replayRetentionConds (config : Config) (env : Env) (R : DialParameters) : Bool :=
  let currentHashes := getDialStateHashes config env.p env.serverEntry env.md5
  decide (0 < env.p.replayDialParametersTTL) &&
  decide (env.oracle.now - R.lastUsedTimestamp ≤ env.p.replayDialParametersTTL) &&
  decide (R.lastUsedServerEntryHash = currentHashes.2) &&
  (decide (R.lastUsedConfigStateHash = currentHashes.1) ||
   env.p.replayIgnoreChangedConfigState) &&
  (decide (R.tlsProfile = "") || decide (R.tlsProfile ∈ env.ext.supportedTLSProfiles)) &&
  (decide (R.quicVersion = "") || decide (R.quicVersion ∈ env.ext.supportedQUICVersions)) &&
  !(R.conjureAPIRegistration && decide (R.conjureAPIRegistrarBidirectionalURL = ""))

/-- Spec-side predicate, following §4.E / claim C7: a QUIC version
survives the filters iff it is in the applicable supported set, passes
the tactics and server-entry limits, and, when fronted, is neither
obfuscated nor in the applicable disable set. -/
def quicVersionEligible (ext : ProtocolExt) (isFronted : Bool) (serverEntry : ServerEntry)
    (p : TacticsParams) (v : String) : Bool :=
  let startingSet :=
    if serverEntry.supportsOnlyQUICv1 then ext.supportedQUICv1Versions
    else ext.supportedQUICVersions
  let disableSet : List String :=
    if serverEntry.frontingProviderID = "" then
      [QUIC_VERSION_V1, QUIC_VERSION_RANDOMIZED_V1,
       QUIC_VERSION_OBFUSCATED_V1, QUIC_VERSION_DECOY_V1]
    else
      ((p.disableFrontingProviderQUICVersions.lookup serverEntry.frontingProviderID).getD [])
  decide (v ∈ startingSet) &&
  (decide (p.limitQUICVersions = []) || decide (v ∈ p.limitQUICVersions)) &&
  (decide (serverEntry.limitQUICVersions = []) ||
   decide (v ∈ serverEntry.limitQUICVersions)) &&
  (!isFronted || (!(ext.quicVersionIsObfuscated v) && decide (v ∉ disableSet)))

/-- The preservation skeleton of the composition pipeline: a step from
`d` to `d'` left the claim-tracked fields unchanged. -/
structure TrackedPreserved (d d' : DialParameters) : Prop where
  isReplay : d'.isReplay = d.isReplay
  isExchanged : d'.isExchanged = d.isExchanged
  tunnelProtocol : d'.tunnelProtocol = d.tunnelProtocol
  sshClientVersion : d'.sshClientVersion = d.sshClientVersion
  sshKEXSeed : d'.sshKEXSeed = d.sshKEXSeed
  obfuscatorPaddingSeed : d'.obfuscatorPaddingSeed = d.obfuscatorPaddingSeed
  fragmentorSeed : d'.fragmentorSeed = d.fragmentorSeed
  livenessTestSeed : d'.livenessTestSeed = d.livenessTestSeed
  apiRequestPaddingSeed : d'.apiRequestPaddingSeed = d.apiRequestPaddingSeed
  osshPrefixSpec : d'.osshPrefixSpec = d.osshPrefixSpec
  osshTransformer : d'.osshObfuscatorSeedTransformerParameters =
    d.osshObfuscatorSeedTransformerParameters
  meekSNIServerName : d'.meekSNIServerName = d.meekSNIServerName

end DialSpec
namespace DialSpec

/-- Concrete scenario: fresh OSSH dial with prefix and seed-transform
specs both offered, exercising the supersede rule. -/
def cfgOSSH : Config :=
  { networkID := "WIFI-1", customHeaders := [("X-A", ["1"])], dialParametersHash := [1, 2] }

def seOSSH : ServerEntry :=
  { ipAddress := "93.184.216.34", dialPorts := [("OSSH", 443)] }

def envOSSH : Env :=
  { p := { replayDialParametersTTL := 3600 }
    pCustom := { replayDialParametersTTL := 3600 }
    serverEntry := seOSSH
    selectProtocol := some TUNNEL_PROTOCOL_OBFUSCATED_SSH
    oracle := { now := 1000
                sshClientVersion := "SSH-2.0-A"
                sshKEXSeed := 1, obfuscatorPaddingSeed := 2, fragmentorSeed := 3
                livenessTestSeed := 4, apiRequestPaddingSeed := 5
                osshSeedTransformOracle := { flip := true, seed := 6, specSelect := some ("tr", 5) }
                osshPrefixOracle := { flip := true, seed := 11, specSelect := some ("pfx", 7) }
                osshSplitSeed := 12 } }

/-- The record produced by the fresh OSSH scenario. -/
def outOSSH : DialParameters :=
  match (MakeDialParameters cfgOSSH envOSSH).1 with
  | .ok d => d
  | _ => {}

/-- Concrete scenario: an eligible stored record that is replayed. -/
def R1 : DialParameters :=
  { lastUsedTimestamp := 100
    lastUsedConfigStateHash := [1, 2]
    lastUsedServerEntryHash := [0, 0, 0, 0, 0, 0, 0, 0]
    tunnelProtocol := "OSSH"
    networkLatencyMultiplier := 1 }

def pReplay : TacticsParams :=
  { replayDialParametersTTL := 3600, replayBPF := true, replaySSH := true
    replayObfuscatorPadding := true, replayFragmentor := true, replayTLSProfile := true
    replayTLSFragmentClientHello := true, replayFronting := true, replayHostname := true
    replayQUICVersion := true, replayObfuscatedQUIC := true
    replayObfuscatedQUICNonceTransformer := true, replayConjureRegistration := true
    replayConjureTransport := true, replayLivenessTest := true, replayUserAgent := true
    replayAPIRequestPadding := true, replayHoldOffTunnel := true
    replayResolveParameters := true, replayHTTPTransformerParameters := true
    replayOSSHSeedTransformerParameters := true, replayOSSHPrefixFlag := true
    networkLatencyMultiplierMin := 1, networkLatencyMultiplierMax := 2 }

def envReplay : Env :=
  { p := pReplay, pCustom := pReplay
    serverEntry := seOSSH
    storedDialParams := some R1
    selectProtocol := some "SHOULD-NOT-BE-USED"
    oracle := { now := 1000 } }

/-- The record produced by the replay scenario. -/
def outReplay : DialParameters :=
  match (MakeDialParameters cfgOSSH envReplay).1 with
  | .ok d => d
  | _ => {}

/-- Concrete scenario: a stored exchanged record. -/
def R9 : DialParameters :=
  { lastUsedTimestamp := 100
    lastUsedConfigStateHash := [1, 2]
    lastUsedServerEntryHash := [0, 0, 0, 0, 0, 0, 0, 0]
    tunnelProtocol := "OSSH"
    isExchanged := true }

def envExch : Env :=
  { p := pReplay, pCustom := pReplay
    serverEntry := seOSSH
    storedDialParams := some R9
    selectProtocol := some "SHOULD-NOT-BE-USED"
    oracle := envOSSH.oracle }

/-- The record produced by the exchanged-record scenario. -/
def outExch : DialParameters :=
  match (MakeDialParameters cfgOSSH envExch).1 with
  | .ok d => d
  | _ => {}

/-- Concrete scenario: Conjure API registration whose fronting spec
carries an IP-literal SNI. -/
def cfgConj : Config := { networkID := "WIFI-1" }

def seConj : ServerEntry :=
  { ipAddress := "9.9.9.8", dialPorts := [("CONJURE-OSSH", 443)] }

def extConj : ProtocolExt :=
  { supportedConjureTransports := ["MIN-OSSH", "DTLS-OSSH"]
    conjureTransportUsesSTUN := fun t => t = "DTLS-OSSH" }

def envConj : Env :=
  { pCustom := { conjureAPIRegistrarBidirectionalURL := "https://reg.example.com" }
    serverEntry := seConj
    ext := extConj
    selectProtocol := some TUNNEL_PROTOCOL_CONJURE_OBFUSCATED_SSH
    isIPAddress := fun s => s = "1.2.3.4" || s = "9.9.9.9" || s = "9.9.9.8"
    oracle := { frontingSpecSelection := some
                  { frontingProviderID := "fp", frontingDialAddress := "1.2.3.4"
                    sniServerName := "9.9.9.9", verifyServerName := "v"
                    frontingHost := "front.example.com" }
                selectTLSProfileResult := some ("P1", "TLSv1.3", none) } }

/-- The record produced by the Conjure API scenario. -/
def outConj : DialParameters :=
  match (MakeDialParameters cfgConj envConj).1 with
  | .ok d => d
  | _ => {}

/-- Concrete scenario: unfronted meek HTTPS whose selected host name is
an IP literal, so the SNI is suppressed. -/
def seMeek : ServerEntry :=
  { ipAddress := "93.184.216.34", meekServerPort := 443
    dialPorts := [("UNFRONTED-MEEK-HTTPS-OSSH", 443)] }

def envMeek : Env :=
  { serverEntry := seMeek
    selectProtocol := some TUNNEL_PROTOCOL_UNFRONTED_MEEK_HTTPS
    isIPAddress := fun s => s = "93.184.216.34"
    oracle := { selectTLSProfileResult := some ("P1", "TLSv1.3", none)
                meekHTTPSHostHeaderHostName := { cannedHostName := "example.net" } } }

/-- The record produced by the unfronted meek HTTPS scenario. -/
def outMeek : DialParameters :=
  match (MakeDialParameters cfgOSSH envMeek).1 with
  | .ok d => d
  | _ => {}

/-- Concrete scenario: QUIC-OSSH where the server entry limits the QUIC
versions to one the client does not support, so selection is empty. -/
def seQUIC : ServerEntry :=
  { ipAddress := "93.184.216.34", limitQUICVersions := ["NONEXISTENT"]
    dialPorts := [("QUIC-OSSH", 443)] }

def envQUIC : Env :=
  { serverEntry := seQUIC
    ext := { supportedQUICVersions := ["QUICv1", "OBFUSCATED-QUICv1"] }
    selectProtocol := some TUNNEL_PROTOCOL_QUIC_OBFUSCATED_SSH
    oracle := { quicSNIHostName := { cannedHostName := "quic.example.net" } } }

/-- The state reached by the QUIC scenario just before version selection. -/
def outQUICPre : DialParameters :=
  match composeThroughHostname cfgOSSH envQUIC none with
  | .ok d => d
  | _ => {}

/-- A replayed record, for the `Failed` deletion property. -/
def dReplayed : DialParameters := { isReplay := true }

/-- Tactics with additional custom headers colliding with
`cfgOSSH.customHeaders` on `X-A`. -/
def pC10 : TacticsParams :=
  { additionalCustomHeaders := [("X-A", ["9"]), ("X-B", ["2"])] }

end DialSpec
namespace DialSpec

theorem Outcome.bind_ok {α β : Type} {x : Outcome α} {f : α → Outcome β} {b : β} :
    x >>= f = .ok b ↔ ∃ a, x = .ok a ∧ f a = .ok b := by
  cases x <;> simp [Bind.bind, Outcome.bind]

theorem trackedRefl {d : DialParameters} : TrackedPreserved d d :=
  ⟨rfl, rfl, rfl, rfl, rfl, rfl, rfl, rfl, rfl, rfl, rfl, rfl⟩

theorem trackedComp {a b c : DialParameters}
    (h1 : TrackedPreserved a b) (h2 : TrackedPreserved b c) : TrackedPreserved a c :=
  ⟨h2.isReplay.trans h1.isReplay, h2.isExchanged.trans h1.isExchanged,
   h2.tunnelProtocol.trans h1.tunnelProtocol, h2.sshClientVersion.trans h1.sshClientVersion,
   h2.sshKEXSeed.trans h1.sshKEXSeed, h2.obfuscatorPaddingSeed.trans h1.obfuscatorPaddingSeed,
   h2.fragmentorSeed.trans h1.fragmentorSeed, h2.livenessTestSeed.trans h1.livenessTestSeed,
   h2.apiRequestPaddingSeed.trans h1.apiRequestPaddingSeed,
   h2.osshPrefixSpec.trans h1.osshPrefixSpec, h2.osshTransformer.trans h1.osshTransformer,
   h2.meekSNIServerName.trans h1.meekSNIServerName⟩

theorem stepRestrictFronting_frame {env : Env} {d d' : DialParameters}
    (h : stepRestrictFronting env d = .ok d') : TrackedPreserved d d' := by
  simp only [stepRestrictFronting] at h
  repeat' split at h
  all_goals cases h
  all_goals exact ⟨rfl, rfl, rfl, rfl, rfl, rfl, rfl, rfl, rfl, rfl, rfl, rfl⟩

theorem stepUpstreamProxy_frame {config : Config} {env : Env} {d d' : DialParameters}
    (h : stepUpstreamProxy config env d = .ok d') : TrackedPreserved d d' := by
  simp only [stepUpstreamProxy] at h
  repeat' split at h
  all_goals cases h
  all_goals exact ⟨rfl, rfl, rfl, rfl, rfl, rfl, rfl, rfl, rfl, rfl, rfl, rfl⟩

theorem stepBPF_frame {env : Env} {d d' : DialParameters}
    (h : stepBPF env d = .ok d') : TrackedPreserved d d' := by
  simp only [stepBPF] at h
  repeat' split at h
  all_goals cases h
  all_goals exact ⟨rfl, rfl, rfl, rfl, rfl, rfl, rfl, rfl, rfl, rfl, rfl, rfl⟩

theorem stepConjureTransport_frame {env : Env} {d d' : DialParameters}
    (h : stepConjureTransport env d = .ok d') : TrackedPreserved d d' := by
  simp only [stepConjureTransport] at h
  repeat' split at h
  all_goals cases h
  all_goals exact ⟨rfl, rfl, rfl, rfl, rfl, rfl, rfl, rfl, rfl, rfl, rfl, rfl⟩

theorem stepTLSProfile_frame {env : Env} {d d' : DialParameters}
    (h : stepTLSProfile env d = .ok d') : TrackedPreserved d d' := by
  simp only [stepTLSProfile] at h
  repeat' split at h
  all_goals cases h
  all_goals exact ⟨rfl, rfl, rfl, rfl, rfl, rfl, rfl, rfl, rfl, rfl, rfl, rfl⟩

theorem stepFrontingParameters_frame {env : Env} {d d' : DialParameters}
    (h : stepFrontingParameters env d = .ok d') : TrackedPreserved d d' := by
  simp only [stepFrontingParameters] at h
  repeat' split at h
  all_goals cases h
  all_goals exact ⟨rfl, rfl, rfl, rfl, rfl, rfl, rfl, rfl, rfl, rfl, rfl, rfl⟩

theorem stepQUICVersion_frame {env : Env} {d d' : DialParameters}
    (h : stepQUICVersion env d = .ok d') : TrackedPreserved d d' := by
  simp only [stepQUICVersion] at h
  repeat' split at h
  all_goals cases h
  all_goals exact ⟨rfl, rfl, rfl, rfl, rfl, rfl, rfl, rfl, rfl, rfl, rfl, rfl⟩

theorem stepObfuscatedQUICPadding_frame {env : Env} {d d' : DialParameters}
    (h : stepObfuscatedQUICPadding env d = .ok d') : TrackedPreserved d d' := by
  simp only [stepObfuscatedQUICPadding] at h
  repeat' split at h
  all_goals cases h
  all_goals exact ⟨rfl, rfl, rfl, rfl, rfl, rfl, rfl, rfl, rfl, rfl, rfl, rfl⟩

theorem stepObfuscatedQUICNonce_frame {env : Env} {d d' : DialParameters}
    (h : stepObfuscatedQUICNonce env d = .ok d') : TrackedPreserved d d' := by
  simp only [stepObfuscatedQUICNonce] at h
  repeat' split at h
  all_goals cases h
  all_goals exact ⟨rfl, rfl, rfl, rfl, rfl, rfl, rfl, rfl, rfl, rfl, rfl, rfl⟩

theorem stepResolveParameters_frame {env : Env} {d d' : DialParameters}
    (h : stepResolveParameters env d = .ok d') : TrackedPreserved d d' := by
  simp only [stepResolveParameters] at h
  repeat' split at h
  all_goals cases h
  all_goals exact ⟨rfl, rfl, rfl, rfl, rfl, rfl, rfl, rfl, rfl, rfl, rfl, rfl⟩

theorem stepHoldOffTunnel_frame {env : Env} {d d' : DialParameters}
    (h : stepHoldOffTunnel env d = .ok d') : TrackedPreserved d d' := by
  simp only [stepHoldOffTunnel] at h
  repeat' split at h
  all_goals cases h
  all_goals exact ⟨rfl, rfl, rfl, rfl, rfl, rfl, rfl, rfl, rfl, rfl, rfl, rfl⟩

theorem stepHTTPTransformer_frame {env : Env} {d d' : DialParameters}
    (h : stepHTTPTransformer env d = .ok d') : TrackedPreserved d d' := by
  simp only [stepHTTPTransformer] at h
  repeat' split at h
  all_goals cases h
  all_goals exact ⟨rfl, rfl, rfl, rfl, rfl, rfl, rfl, rfl, rfl, rfl, rfl, rfl⟩

theorem stepTLSFragmentClientHello_frame {env : Env} {d d' : DialParameters}
    (h : stepTLSFragmentClientHello env d = .ok d') : TrackedPreserved d d' := by
  simp only [stepTLSFragmentClientHello] at h
  repeat' split at h
  all_goals cases h
  all_goals exact ⟨rfl, rfl, rfl, rfl, rfl, rfl, rfl, rfl, rfl, rfl, rfl, rfl⟩

theorem upstreamProxyTypeField_frame (config : Config) (d : DialParameters) :
    TrackedPreserved d (upstreamProxyTypeField config d) := by
  unfold upstreamProxyTypeField
  split
  all_goals exact ⟨rfl, rfl, rfl, rfl, rfl, rfl, rfl, rfl, rfl, rfl, rfl, rfl⟩

theorem userAgentField_frame (env : Env) (headers : List (String × List String))
    (d : DialParameters) : TrackedPreserved d (userAgentField env headers d) := by
  unfold userAgentField
  split
  all_goals exact ⟨rfl, rfl, rfl, rfl, rfl, rfl, rfl, rfl, rfl, rfl, rfl, rfl⟩

theorem userAgentHeaders_frame (env : Env) (headers : List (String × List String))
    (d : DialParameters) : TrackedPreserved d (userAgentHeaders env headers d).1 := by
  unfold userAgentHeaders
  repeat' split
  all_goals first
    | exact ⟨rfl, rfl, rfl, rfl, rfl, rfl, rfl, rfl, rfl, rfl, rfl, rfl⟩
    | exact userAgentField_frame env headers d

theorem headerNamesField_frame (config : Config) (headers : List (String × List String))
    (d : DialParameters) : TrackedPreserved d (headerNamesField config headers d) := by
  unfold headerNamesField
  split
  all_goals exact ⟨rfl, rfl, rfl, rfl, rfl, rfl, rfl, rfl, rfl, rfl, rfl, rfl⟩

theorem dialConfigField_frame (env : Env) (headers : List (String × List String))
    (d : DialParameters) : TrackedPreserved d (dialConfigField env headers d) :=
  ⟨rfl, rfl, rfl, rfl, rfl, rfl, rfl, rfl, rfl, rfl, rfl, rfl⟩

theorem meekConfigField_frame (env : Env) (d : DialParameters) :
    TrackedPreserved d (meekConfigField env d) := by
  unfold meekConfigField
  split
  all_goals exact ⟨rfl, rfl, rfl, rfl, rfl, rfl, rfl, rfl, rfl, rfl, rfl, rfl⟩

theorem stepHeadersAndConfigs_frame {config : Config} {env : Env} {d d' : DialParameters}
    (h : stepHeadersAndConfigs config env d = .ok d') : TrackedPreserved d d' := by
  simp only [stepHeadersAndConfigs] at h
  cases h
  exact trackedComp (trackedComp (upstreamProxyTypeField_frame config d)
    (userAgentHeaders_frame env _ _))
    (trackedComp (headerNamesField_frame config _ _)
      (trackedComp (dialConfigField_frame env _ _) (meekConfigField_frame env _)))

end DialSpec


namespace DialSpec

theorem stepSelectProtocol_frame {env : Env} {isExchanged : Bool} {d d' : DialParameters}
    (h : stepSelectProtocol env isExchanged d = .ok d') :
    d'.isReplay = d.isReplay ∧ d'.isExchanged = d.isExchanged ∧
    d'.sshClientVersion = d.sshClientVersion ∧ d'.sshKEXSeed = d.sshKEXSeed ∧
    d'.obfuscatorPaddingSeed = d.obfuscatorPaddingSeed ∧
    d'.fragmentorSeed = d.fragmentorSeed ∧
    d'.livenessTestSeed = d.livenessTestSeed ∧
    d'.apiRequestPaddingSeed = d.apiRequestPaddingSeed ∧
    d'.osshPrefixSpec = d.osshPrefixSpec ∧
    d'.osshObfuscatorSeedTransformerParameters = d.osshObfuscatorSeedTransformerParameters ∧
    d'.meekSNIServerName = d.meekSNIServerName ∧
    (d.isReplay = true ∨ isExchanged = true → d'.tunnelProtocol = d.tunnelProtocol) ∧
    (d.isReplay = false ∧ isExchanged = false →
      env.selectProtocol = some d'.tunnelProtocol) := by
  simp only [stepSelectProtocol] at h
  split at h
  next hc =>
    split at h
    next => cases h
    next proto heq =>
      cases h
      refine ⟨rfl, rfl, rfl, rfl, rfl, rfl, rfl, rfl, rfl, rfl, rfl, ?_, ?_⟩
      · intro hp
        rcases hp with hp | hp
        · exact absurd hp hc.1
        · exact absurd hp hc.2
      · intro _
        simp [heq]
  next hc =>
    cases h
    refine ⟨rfl, rfl, rfl, rfl, rfl, rfl, rfl, rfl, rfl, rfl, rfl, fun _ => rfl, ?_⟩
    intro hp
    exact absurd ⟨by simp [hp.1], by simp [hp.2]⟩ hc

theorem stepSSH_frame {env : Env} {d d' : DialParameters}
    (h : stepSSH env d = .ok d') :
    d'.isReplay = d.isReplay ∧ d'.isExchanged = d.isExchanged ∧
    d'.tunnelProtocol = d.tunnelProtocol ∧
    d'.obfuscatorPaddingSeed = d.obfuscatorPaddingSeed ∧
    d'.fragmentorSeed = d.fragmentorSeed ∧
    d'.livenessTestSeed = d.livenessTestSeed ∧
    d'.apiRequestPaddingSeed = d.apiRequestPaddingSeed ∧
    d'.osshPrefixSpec = d.osshPrefixSpec ∧
    d'.osshObfuscatorSeedTransformerParameters = d.osshObfuscatorSeedTransformerParameters ∧
    d'.meekSNIServerName = d.meekSNIServerName ∧
    (d.isReplay = false → d'.sshClientVersion = env.oracle.sshClientVersion ∧
      d'.sshKEXSeed = some env.oracle.sshKEXSeed) := by
  simp only [stepSSH] at h
  split at h
  next =>
    cases h
    exact ⟨rfl, rfl, rfl, rfl, rfl, rfl, rfl, rfl, rfl, rfl, fun _ => ⟨rfl, rfl⟩⟩
  next hc =>
    cases h
    exact ⟨rfl, rfl, rfl, rfl, rfl, rfl, rfl, rfl, rfl, rfl,
      fun hf => absurd (Or.inl (by simp [hf])) hc⟩

theorem stepObfuscatorPadding_frame {env : Env} {d d' : DialParameters}
    (h : stepObfuscatorPadding env d = .ok d') :
    d'.isReplay = d.isReplay ∧ d'.isExchanged = d.isExchanged ∧
    d'.tunnelProtocol = d.tunnelProtocol ∧
    d'.sshClientVersion = d.sshClientVersion ∧ d'.sshKEXSeed = d.sshKEXSeed ∧
    d'.fragmentorSeed = d.fragmentorSeed ∧
    d'.livenessTestSeed = d.livenessTestSeed ∧
    d'.apiRequestPaddingSeed = d.apiRequestPaddingSeed ∧
    d'.osshPrefixSpec = d.osshPrefixSpec ∧
    d'.osshObfuscatorSeedTransformerParameters = d.osshObfuscatorSeedTransformerParameters ∧
    d'.meekSNIServerName = d.meekSNIServerName ∧
    (d.isReplay = false →
      d'.obfuscatorPaddingSeed = some env.oracle.obfuscatorPaddingSeed) := by
  simp only [stepObfuscatorPadding] at h
  split at h
  next =>
    split at h
    next =>
      cases h
      exact ⟨rfl, rfl, rfl, rfl, rfl, rfl, rfl, rfl, rfl, rfl, rfl, fun _ => rfl⟩
    next =>
      split at h
      next =>
        cases h
        exact ⟨rfl, rfl, rfl, rfl, rfl, rfl, rfl, rfl, rfl, rfl, rfl, fun _ => rfl⟩
      next =>
        cases h
        exact ⟨rfl, rfl, rfl, rfl, rfl, rfl, rfl, rfl, rfl, rfl, rfl, fun _ => rfl⟩
  next hc =>
    cases h
    exact ⟨rfl, rfl, rfl, rfl, rfl, rfl, rfl, rfl, rfl, rfl, rfl,
      fun hf => absurd (Or.inl (by simp [hf])) hc⟩

theorem stepFragmentor_frame {env : Env} {d d' : DialParameters}
    (h : stepFragmentor env d = .ok d') :
    d'.isReplay = d.isReplay ∧ d'.isExchanged = d.isExchanged ∧
    d'.tunnelProtocol = d.tunnelProtocol ∧
    d'.sshClientVersion = d.sshClientVersion ∧ d'.sshKEXSeed = d.sshKEXSeed ∧
    d'.obfuscatorPaddingSeed = d.obfuscatorPaddingSeed ∧
    d'.livenessTestSeed = d.livenessTestSeed ∧
    d'.apiRequestPaddingSeed = d.apiRequestPaddingSeed ∧
    d'.osshPrefixSpec = d.osshPrefixSpec ∧
    d'.osshObfuscatorSeedTransformerParameters = d.osshObfuscatorSeedTransformerParameters ∧
    d'.meekSNIServerName = d.meekSNIServerName ∧
    (d.isReplay = false → d'.fragmentorSeed = some env.oracle.fragmentorSeed) := by
  simp only [stepFragmentor] at h
  split at h
  next =>
    cases h
    exact ⟨rfl, rfl, rfl, rfl, rfl, rfl, rfl, rfl, rfl, rfl, rfl, fun _ => rfl⟩
  next hc =>
    cases h
    exact ⟨rfl, rfl, rfl, rfl, rfl, rfl, rfl, rfl, rfl, rfl, rfl,
      fun hf => absurd (Or.inl (by simp [hf])) hc⟩

theorem stepLivenessTest_frame {env : Env} {d d' : DialParameters}
    (h : stepLivenessTest env d = .ok d') :
    d'.isReplay = d.isReplay ∧ d'.isExchanged = d.isExchanged ∧
    d'.tunnelProtocol = d.tunnelProtocol ∧
    d'.sshClientVersion = d.sshClientVersion ∧ d'.sshKEXSeed = d.sshKEXSeed ∧
    d'.obfuscatorPaddingSeed = d.obfuscatorPaddingSeed ∧
    d'.fragmentorSeed = d.fragmentorSeed ∧
    d'.apiRequestPaddingSeed = d.apiRequestPaddingSeed ∧
    d'.osshPrefixSpec = d.osshPrefixSpec ∧
    d'.osshObfuscatorSeedTransformerParameters = d.osshObfuscatorSeedTransformerParameters ∧
    d'.meekSNIServerName = d.meekSNIServerName ∧
    (d.isReplay = false → d'.livenessTestSeed = some env.oracle.livenessTestSeed) := by
  simp only [stepLivenessTest] at h
  split at h
  next =>
    cases h
    exact ⟨rfl, rfl, rfl, rfl, rfl, rfl, rfl, rfl, rfl, rfl, rfl, fun _ => rfl⟩
  next hc =>
    cases h
    exact ⟨rfl, rfl, rfl, rfl, rfl, rfl, rfl, rfl, rfl, rfl, rfl,
      fun hf => absurd (Or.inl (by simp [hf])) hc⟩

theorem stepAPIRequestPadding_frame {env : Env} {d d' : DialParameters}
    (h : stepAPIRequestPadding env d = .ok d') :
    d'.isReplay = d.isReplay ∧ d'.isExchanged = d.isExchanged ∧
    d'.tunnelProtocol = d.tunnelProtocol ∧
    d'.sshClientVersion = d.sshClientVersion ∧ d'.sshKEXSeed = d.sshKEXSeed ∧
    d'.obfuscatorPaddingSeed = d.obfuscatorPaddingSeed ∧
    d'.fragmentorSeed = d.fragmentorSeed ∧
    d'.livenessTestSeed = d.livenessTestSeed ∧
    d'.osshPrefixSpec = d.osshPrefixSpec ∧
    d'.osshObfuscatorSeedTransformerParameters = d.osshObfuscatorSeedTransformerParameters ∧
    d'.meekSNIServerName = d.meekSNIServerName ∧
    (d.isReplay = false →
      d'.apiRequestPaddingSeed = some env.oracle.apiRequestPaddingSeed) := by
  simp only [stepAPIRequestPadding] at h
  split at h
  next =>
    cases h
    exact ⟨rfl, rfl, rfl, rfl, rfl, rfl, rfl, rfl, rfl, rfl, rfl, fun _ => rfl⟩
  next hc =>
    cases h
    exact ⟨rfl, rfl, rfl, rfl, rfl, rfl, rfl, rfl, rfl, rfl, rfl,
      fun hf => absurd (Or.inl (by simp [hf])) hc⟩

theorem stepConjureRegistration_frame {config : Config} {env : Env} {d d' : DialParameters}
    (h : stepConjureRegistration config env d = .ok d') :
    d'.isReplay = d.isReplay ∧ d'.isExchanged = d.isExchanged ∧
    d'.tunnelProtocol = d.tunnelProtocol ∧
    d'.sshClientVersion = d.sshClientVersion ∧ d'.sshKEXSeed = d.sshKEXSeed ∧
    d'.obfuscatorPaddingSeed = d.obfuscatorPaddingSeed ∧
    d'.fragmentorSeed = d.fragmentorSeed ∧
    d'.livenessTestSeed = d.livenessTestSeed ∧
    d'.apiRequestPaddingSeed = d.apiRequestPaddingSeed ∧
    d'.osshPrefixSpec = d.osshPrefixSpec ∧
    d'.osshObfuscatorSeedTransformerParameters = d.osshObfuscatorSeedTransformerParameters := by
  simp only [stepConjureRegistration] at h
  repeat' split at h
  all_goals cases h
  all_goals exact ⟨rfl, rfl, rfl, rfl, rfl, rfl, rfl, rfl, rfl, rfl, rfl⟩

theorem stepHostname_frame {env : Env} {d d' : DialParameters}
    (h : stepHostname env d = .ok d') :
    d'.isReplay = d.isReplay ∧ d'.isExchanged = d.isExchanged ∧
    d'.tunnelProtocol = d.tunnelProtocol ∧
    d'.sshClientVersion = d.sshClientVersion ∧ d'.sshKEXSeed = d.sshKEXSeed ∧
    d'.obfuscatorPaddingSeed = d.obfuscatorPaddingSeed ∧
    d'.fragmentorSeed = d.fragmentorSeed ∧
    d'.livenessTestSeed = d.livenessTestSeed ∧
    d'.apiRequestPaddingSeed = d.apiRequestPaddingSeed ∧
    d'.osshPrefixSpec = d.osshPrefixSpec ∧
    d'.osshObfuscatorSeedTransformerParameters = d.osshObfuscatorSeedTransformerParameters := by
  simp only [stepHostname] at h
  repeat' split at h
  all_goals cases h
  all_goals exact ⟨rfl, rfl, rfl, rfl, rfl, rfl, rfl, rfl, rfl, rfl, rfl⟩

theorem stepDialAddress_frame {env : Env} {d d' : DialParameters}
    (h : stepDialAddress env d = .ok d') :
    d'.isReplay = d.isReplay ∧ d'.isExchanged = d.isExchanged ∧
    d'.tunnelProtocol = d.tunnelProtocol ∧
    d'.sshClientVersion = d.sshClientVersion ∧ d'.sshKEXSeed = d.sshKEXSeed ∧
    d'.obfuscatorPaddingSeed = d.obfuscatorPaddingSeed ∧
    d'.fragmentorSeed = d.fragmentorSeed ∧
    d'.livenessTestSeed = d.livenessTestSeed ∧
    d'.apiRequestPaddingSeed = d.apiRequestPaddingSeed ∧
    d'.osshPrefixSpec = d.osshPrefixSpec ∧
    d'.osshObfuscatorSeedTransformerParameters = d.osshObfuscatorSeedTransformerParameters := by
  simp only [stepDialAddress] at h
  repeat' split at h
  all_goals cases h
  all_goals exact ⟨rfl, rfl, rfl, rfl, rfl, rfl, rfl, rfl, rfl, rfl, rfl⟩

end DialSpec


namespace DialSpec

theorem stepMeekAddressChecks_frame {env : Env} {d d' : DialParameters}
    (h : stepMeekAddressChecks env d = .ok d') :
    d'.isReplay = d.isReplay ∧ d'.isExchanged = d.isExchanged ∧
    d'.tunnelProtocol = d.tunnelProtocol ∧
    d'.sshClientVersion = d.sshClientVersion ∧ d'.sshKEXSeed = d.sshKEXSeed ∧
    d'.obfuscatorPaddingSeed = d.obfuscatorPaddingSeed ∧
    d'.fragmentorSeed = d.fragmentorSeed ∧
    d'.livenessTestSeed = d.livenessTestSeed ∧
    d'.apiRequestPaddingSeed = d.apiRequestPaddingSeed ∧
    d'.osshPrefixSpec = d.osshPrefixSpec ∧
    d'.osshObfuscatorSeedTransformerParameters = d.osshObfuscatorSeedTransformerParameters ∧
    (env.isIPAddress "" = false → tunnelProtocolUsesMeek d'.tunnelProtocol = true →
      env.isIPAddress d'.meekSNIServerName = false) := by
  simp only [stepMeekAddressChecks] at h
  split at h
  next hmeek =>
    split at h
    next => cases h
    next =>
      split at h
      next hip =>
        cases h
        exact ⟨rfl, rfl, rfl, rfl, rfl, rfl, rfl, rfl, rfl, rfl, rfl, fun h0 _ => h0⟩
      next hip =>
        cases h
        exact ⟨rfl, rfl, rfl, rfl, rfl, rfl, rfl, rfl, rfl, rfl, rfl,
          fun _ _ => by simpa using hip⟩
  next hmeek =>
    cases h
    exact ⟨rfl, rfl, rfl, rfl, rfl, rfl, rfl, rfl, rfl, rfl, rfl,
      fun _ hm => absurd hm (by simpa using hmeek)⟩

theorem osshSeedTransformerField_frame (env : Env) (d : DialParameters) :
    (osshSeedTransformerField env d).isReplay = d.isReplay ∧
    (osshSeedTransformerField env d).isExchanged = d.isExchanged ∧
    (osshSeedTransformerField env d).tunnelProtocol = d.tunnelProtocol ∧
    (osshSeedTransformerField env d).sshClientVersion = d.sshClientVersion ∧
    (osshSeedTransformerField env d).sshKEXSeed = d.sshKEXSeed ∧
    (osshSeedTransformerField env d).obfuscatorPaddingSeed = d.obfuscatorPaddingSeed ∧
    (osshSeedTransformerField env d).fragmentorSeed = d.fragmentorSeed ∧
    (osshSeedTransformerField env d).livenessTestSeed = d.livenessTestSeed ∧
    (osshSeedTransformerField env d).apiRequestPaddingSeed = d.apiRequestPaddingSeed ∧
    (osshSeedTransformerField env d).osshPrefixSpec = d.osshPrefixSpec ∧
    (osshSeedTransformerField env d).meekSNIServerName = d.meekSNIServerName := by
  unfold osshSeedTransformerField
  repeat' split
  all_goals exact ⟨rfl, rfl, rfl, rfl, rfl, rfl, rfl, rfl, rfl, rfl, rfl⟩

theorem osshPrefixFields_frame {env : Env} {d d' : DialParameters}
    (h : osshPrefixFields env d = .ok d') :
    d'.isReplay = d.isReplay ∧ d'.isExchanged = d.isExchanged ∧
    d'.tunnelProtocol = d.tunnelProtocol ∧
    d'.sshClientVersion = d.sshClientVersion ∧ d'.sshKEXSeed = d.sshKEXSeed ∧
    d'.obfuscatorPaddingSeed = d.obfuscatorPaddingSeed ∧
    d'.fragmentorSeed = d.fragmentorSeed ∧
    d'.livenessTestSeed = d.livenessTestSeed ∧
    d'.apiRequestPaddingSeed = d.apiRequestPaddingSeed ∧
    d'.osshObfuscatorSeedTransformerParameters =
      d.osshObfuscatorSeedTransformerParameters ∧
    d'.meekSNIServerName = d.meekSNIServerName := by
  simp only [osshPrefixFields] at h
  repeat' split at h
  all_goals cases h
  all_goals exact ⟨rfl, rfl, rfl, rfl, rfl, rfl, rfl, rfl, rfl, rfl, rfl⟩

theorem osshPrefixSupersede_spec (d : DialParameters) :
    (osshPrefixSupersede d).isReplay = d.isReplay ∧
    (osshPrefixSupersede d).isExchanged = d.isExchanged ∧
    (osshPrefixSupersede d).tunnelProtocol = d.tunnelProtocol ∧
    (osshPrefixSupersede d).sshClientVersion = d.sshClientVersion ∧
    (osshPrefixSupersede d).sshKEXSeed = d.sshKEXSeed ∧
    (osshPrefixSupersede d).obfuscatorPaddingSeed = d.obfuscatorPaddingSeed ∧
    (osshPrefixSupersede d).fragmentorSeed = d.fragmentorSeed ∧
    (osshPrefixSupersede d).livenessTestSeed = d.livenessTestSeed ∧
    (osshPrefixSupersede d).apiRequestPaddingSeed = d.apiRequestPaddingSeed ∧
    (osshPrefixSupersede d).meekSNIServerName = d.meekSNIServerName ∧
    ((osshPrefixSupersede d).osshPrefixSpec.isSome = true →
      (osshPrefixSupersede d).osshObfuscatorSeedTransformerParameters = none) := by
  unfold osshPrefixSupersede
  split
  next => exact ⟨rfl, rfl, rfl, rfl, rfl, rfl, rfl, rfl, rfl, rfl, fun _ => rfl⟩
  next hc =>
    exact ⟨rfl, rfl, rfl, rfl, rfl, rfl, rfl, rfl, rfl, rfl, fun hs => absurd hs hc⟩

theorem stepOSSHExtras_frame {env : Env} {d d' : DialParameters}
    (h : stepOSSHExtras env d = .ok d') :
    d'.isReplay = d.isReplay ∧ d'.isExchanged = d.isExchanged ∧
    d'.tunnelProtocol = d.tunnelProtocol ∧
    d'.sshClientVersion = d.sshClientVersion ∧ d'.sshKEXSeed = d.sshKEXSeed ∧
    d'.obfuscatorPaddingSeed = d.obfuscatorPaddingSeed ∧
    d'.fragmentorSeed = d.fragmentorSeed ∧
    d'.livenessTestSeed = d.livenessTestSeed ∧
    d'.apiRequestPaddingSeed = d.apiRequestPaddingSeed ∧
    d'.meekSNIServerName = d.meekSNIServerName ∧
    ((d.osshPrefixSpec.isSome = true →
        d.tunnelProtocol = TUNNEL_PROTOCOL_OBFUSCATED_SSH) →
      d'.osshPrefixSpec.isSome = true →
        d'.osshObfuscatorSeedTransformerParameters = none) := by
  simp only [stepOSSHExtras] at h
  split at h
  next hoss =>
    rw [show ((osshPrefixFields env (osshSeedTransformerField env d)).bind fun d2 =>
        Outcome.ok (osshPrefixSupersede d2)) =
        ((osshPrefixFields env (osshSeedTransformerField env d)) >>=
          fun d2 => Outcome.ok (osshPrefixSupersede d2)) from rfl] at h
    obtain ⟨d2, h2, h3⟩ := Outcome.bind_ok.mp h
    cases h3
    obtain ⟨t1, t2, t3, t4, t5, t6, t7, t8, t9, t10, t11⟩ :=
      osshSeedTransformerField_frame env d
    obtain ⟨p1, p2, p3, p4, p5, p6, p7, p8, p9, p10, p11⟩ := osshPrefixFields_frame h2
    obtain ⟨s1, s2, s3, s4, s5, s6, s7, s8, s9, s10, s11⟩ := osshPrefixSupersede_spec d2
    exact ⟨s1.trans (p1.trans t1), s2.trans (p2.trans t2), s3.trans (p3.trans t3),
      s4.trans (p4.trans t4), s5.trans (p5.trans t5), s6.trans (p6.trans t6),
      s7.trans (p7.trans t7), s8.trans (p8.trans t8), s9.trans (p9.trans t9),
      s10.trans (p11.trans t11), fun _ => s11⟩
  next hoss =>
    cases h
    exact ⟨rfl, rfl, rfl, rfl, rfl, rfl, rfl, rfl, rfl, rfl,
      fun hinv hsome => absurd (hinv hsome) hoss⟩

end DialSpec


namespace DialSpec

theorem initialDialParameters_isReplay (config : Config) (env : Env)
    (retained : Option DialParameters) :
    (initialDialParameters config env retained).isReplay =
      (retained.isSome && !(retained.getD {}).isExchanged) := by
  cases retained <;> rfl

theorem initialDialParameters_isExchanged (config : Config) (env : Env)
    (retained : Option DialParameters) :
    (initialDialParameters config env retained).isExchanged = false := rfl

theorem initialDialParameters_tunnelProtocol (config : Config) (env : Env)
    (retained : Option DialParameters) :
    (initialDialParameters config env retained).tunnelProtocol =
      (retained.getD {}).tunnelProtocol := rfl

theorem initialDialParameters_osshPrefixSpec (config : Config) (env : Env)
    (retained : Option DialParameters) :
    (initialDialParameters config env retained).osshPrefixSpec =
      (retained.getD {}).osshPrefixSpec := rfl

theorem initialDialParameters_osshTransformer (config : Config) (env : Env)
    (retained : Option DialParameters) :
    (initialDialParameters config env retained).osshObfuscatorSeedTransformerParameters =
      (retained.getD {}).osshObfuscatorSeedTransformerParameters := rfl

/-- The collected properties of a successful composition: exchanged
normalization, the replay flag, tunnel protocol retention, fresh
initialization of the non-replayed fields, the OSSH prefix/seed-transform
exclusion, and meek SNI suppression of IP literals. -/
theorem composeDialParameters_ok {config : Config} {env : Env}
    {retained : Option DialParameters} {d : DialParameters}
    (h : composeDialParameters config env retained = .ok d) :
    d.isExchanged = false ∧
    d.isReplay = (retained.isSome && !(retained.getD {}).isExchanged) ∧
    (∀ R, retained = some R → d.tunnelProtocol = R.tunnelProtocol) ∧
    (d.isReplay = false →
      d.sshClientVersion = env.oracle.sshClientVersion ∧
      d.sshKEXSeed = some env.oracle.sshKEXSeed ∧
      d.obfuscatorPaddingSeed = some env.oracle.obfuscatorPaddingSeed ∧
      d.fragmentorSeed = some env.oracle.fragmentorSeed ∧
      d.livenessTestSeed = some env.oracle.livenessTestSeed ∧
      d.apiRequestPaddingSeed = some env.oracle.apiRequestPaddingSeed) ∧
    ((∀ R, retained = some R → R.osshPrefixSpec.isSome = true →
        R.tunnelProtocol = TUNNEL_PROTOCOL_OBFUSCATED_SSH) →
      d.osshPrefixSpec.isSome = true →
        d.osshObfuscatorSeedTransformerParameters = none) ∧
    (env.isIPAddress "" = false → tunnelProtocolUsesMeek d.tunnelProtocol = true →
      env.isIPAddress d.meekSNIServerName = false) := by
  unfold composeDialParameters at h
  split at h
  next => cases h
  next hres =>
  obtain ⟨a25, h, H26⟩ := Outcome.bind_ok.mp h
  obtain ⟨a24, h, H25⟩ := Outcome.bind_ok.mp h
  obtain ⟨a23, h, H24⟩ := Outcome.bind_ok.mp h
  obtain ⟨a22, h, H23⟩ := Outcome.bind_ok.mp h
  obtain ⟨a21, h, H22⟩ := Outcome.bind_ok.mp h
  obtain ⟨a20, h, H21⟩ := Outcome.bind_ok.mp h
  obtain ⟨a19, h, H20⟩ := Outcome.bind_ok.mp h
  obtain ⟨a18, h, H19⟩ := Outcome.bind_ok.mp h
  obtain ⟨a17, h, H18⟩ := Outcome.bind_ok.mp h
  obtain ⟨a16, h, H17⟩ := Outcome.bind_ok.mp h
  obtain ⟨a15, h, H16⟩ := Outcome.bind_ok.mp h
  obtain ⟨a14, h, H15⟩ := Outcome.bind_ok.mp h
  obtain ⟨a13, h, H14⟩ := Outcome.bind_ok.mp h
  obtain ⟨a12, h, H13⟩ := Outcome.bind_ok.mp h
  obtain ⟨a11, h, H12⟩ := Outcome.bind_ok.mp h
  obtain ⟨a10, h, H11⟩ := Outcome.bind_ok.mp h
  obtain ⟨a9, h, H10⟩ := Outcome.bind_ok.mp h
  obtain ⟨a8, h, H9⟩ := Outcome.bind_ok.mp h
  obtain ⟨a7, h, H8⟩ := Outcome.bind_ok.mp h
  obtain ⟨a6, h, H7⟩ := Outcome.bind_ok.mp h
  obtain ⟨a5, h, H6⟩ := Outcome.bind_ok.mp h
  obtain ⟨a4, h, H5⟩ := Outcome.bind_ok.mp h
  obtain ⟨a3, h, H4⟩ := Outcome.bind_ok.mp h
  obtain ⟨a2, H2, H3⟩ := Outcome.bind_ok.mp h
  obtain ⟨s2ir, s2ix, s2ssh, s2kex, s2obf, s2frg, s2liv, s2api, s2pre, s2tr, s2sni,
    s2tp, _⟩ := stepSelectProtocol_frame H2
  have T3 := stepRestrictFronting_frame H3
  have T4 := stepUpstreamProxy_frame H4
  have T5 := stepBPF_frame H5
  obtain ⟨s6ir, s6ix, s6tp, s6obf, s6frg, s6liv, s6api, s6pre, s6tr, s6sni, s6set⟩ :=
    stepSSH_frame H6
  obtain ⟨s7ir, s7ix, s7tp, s7ssh, s7kex, s7frg, s7liv, s7api, s7pre, s7tr, s7sni,
    s7set⟩ := stepObfuscatorPadding_frame H7
  obtain ⟨s8ir, s8ix, s8tp, s8ssh, s8kex, s8obf, s8liv, s8api, s8pre, s8tr, s8sni,
    s8set⟩ := stepFragmentor_frame H8
  obtain ⟨s9ir, s9ix, s9tp, s9ssh, s9kex, s9obf, s9frg, s9liv, s9api, s9pre, s9tr⟩ :=
    stepConjureRegistration_frame H9
  have T10 := stepConjureTransport_frame H10
  have T11 := stepTLSProfile_frame H11
  have T12 := stepFrontingParameters_frame H12
  obtain ⟨s13ir, s13ix, s13tp, s13ssh, s13kex, s13obf, s13frg, s13liv, s13api, s13pre,
    s13tr⟩ := stepHostname_frame H13
  have T14 := stepQUICVersion_frame H14
  have T15 := stepObfuscatedQUICPadding_frame H15
  have T16 := stepObfuscatedQUICNonce_frame H16
  obtain ⟨s17ir, s17ix, s17tp, s17ssh, s17kex, s17obf, s17frg, s17api, s17pre, s17tr,
    s17sni, s17set⟩ := stepLivenessTest_frame H17
  obtain ⟨s18ir, s18ix, s18tp, s18ssh, s18kex, s18obf, s18frg, s18liv, s18pre, s18tr,
    s18sni, s18set⟩ := stepAPIRequestPadding_frame H18
  have T19 := stepResolveParameters_frame H19
  have T20 := stepHoldOffTunnel_frame H20
  obtain ⟨s21ir, s21ix, s21tp, s21ssh, s21kex, s21obf, s21frg, s21liv, s21api, s21sni,
    s21inv⟩ := stepOSSHExtras_frame H21
  have T22 := stepHTTPTransformer_frame H22
  obtain ⟨s23ir, s23ix, s23tp, s23ssh, s23kex, s23obf, s23frg, s23liv, s23api, s23pre,
    s23tr⟩ := stepDialAddress_frame H23
  obtain ⟨s24ir, s24ix, s24tp, s24ssh, s24kex, s24obf, s24frg, s24liv, s24api, s24pre,
    s24tr, s24sni⟩ := stepMeekAddressChecks_frame H24
  have T25 := stepTLSFragmentClientHello_frame H25
  have T26 := stepHeadersAndConfigs_frame H26
  have ir : d.isReplay = (initialDialParameters config env retained).isReplay :=
    T26.isReplay.trans (T25.isReplay.trans (s24ir.trans (s23ir.trans (T22.isReplay.trans (s21ir.trans (T20.isReplay.trans (T19.isReplay.trans (s18ir.trans (s17ir.trans (T16.isReplay.trans (T15.isReplay.trans (T14.isReplay.trans (s13ir.trans (T12.isReplay.trans (T11.isReplay.trans (T10.isReplay.trans (s9ir.trans (s8ir.trans (s7ir.trans (s6ir.trans (T5.isReplay.trans (T4.isReplay.trans (T3.isReplay.trans (s2ir))))))))))))))))))))))))
  have ix : d.isExchanged = (initialDialParameters config env retained).isExchanged :=
    T26.isExchanged.trans (T25.isExchanged.trans (s24ix.trans (s23ix.trans (T22.isExchanged.trans (s21ix.trans (T20.isExchanged.trans (T19.isExchanged.trans (s18ix.trans (s17ix.trans (T16.isExchanged.trans (T15.isExchanged.trans (T14.isExchanged.trans (s13ix.trans (T12.isExchanged.trans (T11.isExchanged.trans (T10.isExchanged.trans (s9ix.trans (s8ix.trans (s7ix.trans (s6ix.trans (T5.isExchanged.trans (T4.isExchanged.trans (T3.isExchanged.trans (s2ix))))))))))))))))))))))))
  have tp2 : d.tunnelProtocol = a2.tunnelProtocol :=
    T26.tunnelProtocol.trans (T25.tunnelProtocol.trans (s24tp.trans (s23tp.trans (T22.tunnelProtocol.trans (s21tp.trans (T20.tunnelProtocol.trans (T19.tunnelProtocol.trans (s18tp.trans (s17tp.trans (T16.tunnelProtocol.trans (T15.tunnelProtocol.trans (T14.tunnelProtocol.trans (s13tp.trans (T12.tunnelProtocol.trans (T11.tunnelProtocol.trans (T10.tunnelProtocol.trans (s9tp.trans (s8tp.trans (s7tp.trans (s6tp.trans (T5.tunnelProtocol.trans (T4.tunnelProtocol.trans (T3.tunnelProtocol)))))))))))))))))))))))
  have tp20 : a20.tunnelProtocol = a2.tunnelProtocol :=
    T20.tunnelProtocol.trans (T19.tunnelProtocol.trans (s18tp.trans (s17tp.trans (T16.tunnelProtocol.trans (T15.tunnelProtocol.trans (T14.tunnelProtocol.trans (s13tp.trans (T12.tunnelProtocol.trans (T11.tunnelProtocol.trans (T10.tunnelProtocol.trans (s9tp.trans (s8tp.trans (s7tp.trans (s6tp.trans (T5.tunnelProtocol.trans (T4.tunnelProtocol.trans (T3.tunnelProtocol)))))))))))))))))
  have pre20 : a20.osshPrefixSpec = (initialDialParameters config env retained).osshPrefixSpec :=
    T20.osshPrefixSpec.trans (T19.osshPrefixSpec.trans (s18pre.trans (s17pre.trans (T16.osshPrefixSpec.trans (T15.osshPrefixSpec.trans (T14.osshPrefixSpec.trans (s13pre.trans (T12.osshPrefixSpec.trans (T11.osshPrefixSpec.trans (T10.osshPrefixSpec.trans (s9pre.trans (s8pre.trans (s7pre.trans (s6pre.trans (T5.osshPrefixSpec.trans (T4.osshPrefixSpec.trans (T3.osshPrefixSpec.trans (s2pre))))))))))))))))))
  have pre21 : d.osshPrefixSpec = a21.osshPrefixSpec :=
    T26.osshPrefixSpec.trans (T25.osshPrefixSpec.trans (s24pre.trans (s23pre.trans (T22.osshPrefixSpec))))
  have tr21 : d.osshObfuscatorSeedTransformerParameters = a21.osshObfuscatorSeedTransformerParameters :=
    T26.osshTransformer.trans (T25.osshTransformer.trans (s24tr.trans (s23tr.trans (T22.osshTransformer))))
  have protoRetained : ∀ R, retained = some R → d.tunnelProtocol = R.tunnelProtocol := by
    intro R hR
    have hor : (initialDialParameters config env retained).isReplay = true ∨
        (retained.isSome && (retained.getD {}).isExchanged) = true := by
      rw [initialDialParameters_isReplay, hR]
      cases hx : R.isExchanged <;> simp [hx]
    have hretp := (s2tp hor).trans (initialDialParameters_tunnelProtocol config env retained)
    rw [hR] at hretp
    simp only [Option.getD_some] at hretp
    exact tp2.trans hretp
  refine ⟨ix.trans (initialDialParameters_isExchanged config env retained),
    ir.trans (initialDialParameters_isReplay config env retained),
    protoRetained, ?_, ?_, ?_⟩
  · intro hf
    have hinitRep : (initialDialParameters config env retained).isReplay = false :=
      (ir.symm).trans hf
    have ir5 : a5.isReplay = false := (T5.isReplay.trans (T4.isReplay.trans (T3.isReplay))).trans (s2ir.trans hinitRep)
    have ir6 : a6.isReplay = false := s6ir.trans ir5
    have ir7 : a7.isReplay = false := s7ir.trans ir6
    have ir16 : a16.isReplay = false := (T16.isReplay.trans (T15.isReplay.trans (T14.isReplay.trans (s13ir.trans (T12.isReplay.trans (T11.isReplay.trans (T10.isReplay.trans (s9ir.trans (s8ir))))))))).trans ir7
    have ir17 : a17.isReplay = false := s17ir.trans ir16
    obtain ⟨hssh, hkex⟩ := s6set ir5
    have hobf := s7set ir6
    have hfrg := s8set ir7
    have hliv := s17set ir16
    have hapi := s18set ir17
    exact ⟨(T26.sshClientVersion.trans (T25.sshClientVersion.trans (s24ssh.trans (s23ssh.trans (T22.sshClientVersion.trans (s21ssh.trans (T20.sshClientVersion.trans (T19.sshClientVersion.trans (s18ssh.trans (s17ssh.trans (T16.sshClientVersion.trans (T15.sshClientVersion.trans (T14.sshClientVersion.trans (s13ssh.trans (T12.sshClientVersion.trans (T11.sshClientVersion.trans (T10.sshClientVersion.trans (s9ssh.trans (s8ssh.trans (s7ssh)))))))))))))))))))).trans hssh,
      (T26.sshKEXSeed.trans (T25.sshKEXSeed.trans (s24kex.trans (s23kex.trans (T22.sshKEXSeed.trans (s21kex.trans (T20.sshKEXSeed.trans (T19.sshKEXSeed.trans (s18kex.trans (s17kex.trans (T16.sshKEXSeed.trans (T15.sshKEXSeed.trans (T14.sshKEXSeed.trans (s13kex.trans (T12.sshKEXSeed.trans (T11.sshKEXSeed.trans (T10.sshKEXSeed.trans (s9kex.trans (s8kex.trans (s7kex)))))))))))))))))))).trans hkex,
      (T26.obfuscatorPaddingSeed.trans (T25.obfuscatorPaddingSeed.trans (s24obf.trans (s23obf.trans (T22.obfuscatorPaddingSeed.trans (s21obf.trans (T20.obfuscatorPaddingSeed.trans (T19.obfuscatorPaddingSeed.trans (s18obf.trans (s17obf.trans (T16.obfuscatorPaddingSeed.trans (T15.obfuscatorPaddingSeed.trans (T14.obfuscatorPaddingSeed.trans (s13obf.trans (T12.obfuscatorPaddingSeed.trans (T11.obfuscatorPaddingSeed.trans (T10.obfuscatorPaddingSeed.trans (s9obf.trans (s8obf))))))))))))))))))).trans hobf,
      (T26.fragmentorSeed.trans (T25.fragmentorSeed.trans (s24frg.trans (s23frg.trans (T22.fragmentorSeed.trans (s21frg.trans (T20.fragmentorSeed.trans (T19.fragmentorSeed.trans (s18frg.trans (s17frg.trans (T16.fragmentorSeed.trans (T15.fragmentorSeed.trans (T14.fragmentorSeed.trans (s13frg.trans (T12.fragmentorSeed.trans (T11.fragmentorSeed.trans (T10.fragmentorSeed.trans (s9frg)))))))))))))))))).trans hfrg,
      (T26.livenessTestSeed.trans (T25.livenessTestSeed.trans (s24liv.trans (s23liv.trans (T22.livenessTestSeed.trans (s21liv.trans (T20.livenessTestSeed.trans (T19.livenessTestSeed.trans (s18liv))))))))).trans hliv,
      (T26.apiRequestPaddingSeed.trans (T25.apiRequestPaddingSeed.trans (s24api.trans (s23api.trans (T22.apiRequestPaddingSeed.trans (s21api.trans (T20.apiRequestPaddingSeed.trans (T19.apiRequestPaddingSeed)))))))).trans hapi⟩
  · intro hpfx hsome
    have hyp21 : a20.osshPrefixSpec.isSome = true →
        a20.tunnelProtocol = TUNNEL_PROTOCOL_OBFUSCATED_SSH := by
      intro hs
      rw [pre20, initialDialParameters_osshPrefixSpec] at hs
      cases hRet : retained with
      | none =>
        rw [hRet] at hs
        simp at hs
      | some R =>
        rw [hRet] at hs
        simp only [Option.getD_some] at hs
        have hproto := hpfx R hRet hs
        have hor : (initialDialParameters config env retained).isReplay = true ∨
            (retained.isSome && (retained.getD {}).isExchanged) = true := by
          rw [initialDialParameters_isReplay, hRet]
          cases hx : R.isExchanged <;> simp [hx]
        have hretp := (s2tp hor).trans (initialDialParameters_tunnelProtocol config env retained)
        rw [hRet] at hretp
        simp only [Option.getD_some] at hretp
        rw [tp20, hretp]
        exact hproto
    have hnull := s21inv hyp21 (by rw [pre21] at hsome; exact hsome)
    exact tr21.trans hnull
  · intro h0 hm
    have sni25 : d.meekSNIServerName = a24.meekSNIServerName :=
      T26.meekSNIServerName.trans T25.meekSNIServerName
    have tp24 : d.tunnelProtocol = a24.tunnelProtocol :=
      T26.tunnelProtocol.trans T25.tunnelProtocol
    have hsni := s24sni h0 (by rw [tp24] at hm; exact hm)
    rw [sni25]
    exact hsni

end DialSpec


namespace DialSpec

/-- The retention conditions (1)-(7), code side and spec side, coincide:
the spec predicate holds iff the deletion disjunction of lines 256-294 is
false. -/
theorem replayRetentionConds_iff {config : Config} {env : Env} {R : DialParameters} :
    replayRetentionConds config env R = true ↔
      ¬ (env.p.replayDialParametersTTL ≤ 0 ∨
         R.lastUsedTimestamp <
           dialCurrentTimestamp env - env.p.replayDialParametersTTL ∨
         (¬ env.p.replayIgnoreChangedConfigState ∧
          R.lastUsedConfigStateHash ≠ (dialStateHashPair config env).1) ∨
         R.lastUsedServerEntryHash ≠ (dialStateHashPair config env).2 ∨
         (R.tlsProfile ≠ "" ∧ R.tlsProfile ∉ env.ext.supportedTLSProfiles) ∨
         (R.quicVersion ≠ "" ∧ R.quicVersion ∉ env.ext.supportedQUICVersions) ∨
         (R.conjureAPIRegistration ∧ R.conjureAPIRegistrarBidirectionalURL = "")) := by
  by_cases httl : (0 : Int) < env.p.replayDialParametersTTL
  · simp only [replayRetentionConds, dialCurrentTimestamp, dialStateHashPair,
      if_pos httl, Bool.and_eq_true, decide_eq_true_eq, Bool.or_eq_true,
      Bool.not_eq_true']
    push_neg
    constructor
    · rintro ⟨⟨⟨⟨⟨⟨h1, h2⟩, h3⟩, h4⟩, h5⟩, h6⟩, h7⟩
      refine ⟨h1, by omega, fun hig => h4.resolve_right hig, h3,
        fun hne => h5.resolve_left hne, fun hne => h6.resolve_left hne,
        fun ha hb => by rw [ha] at h7; simp [hb] at h7⟩
    · rintro ⟨g1, g2, g3, g4, g5, g6, g7⟩
      refine ⟨⟨⟨⟨⟨⟨g1, by omega⟩, g4⟩, ?_⟩, ?_⟩, ?_⟩, ?_⟩
      · by_cases hig : env.p.replayIgnoreChangedConfigState = true
        · exact Or.inr hig
        · exact Or.inl (g3 hig)
      · by_cases hne : R.tlsProfile = ""
        · exact Or.inl hne
        · exact Or.inr (g5 hne)
      · by_cases hne : R.quicVersion = ""
        · exact Or.inl hne
        · exact Or.inr (g6 hne)
      · cases hc : R.conjureAPIRegistration
        · simp
        · simp [g7 hc]
  · have hle : env.p.replayDialParametersTTL ≤ 0 := by omega
    simp [replayRetentionConds, hle, httl]

end DialSpec


namespace DialSpec

/-- Claim-side eligibility is exactly the retention conditions plus
conditions (8) `DisableReplay` and (9) `canReplay`. -/
theorem replayEligible_eq {config : Config} {env : Env} {R : DialParameters} :
    replayEligible config env R =
      (replayRetentionConds config env R && !config.disableReplay &&
        env.canReplay R.tunnelProtocol) := rfl

/-- The arbitration retains a record iff it is the stored record and the
nine replay-eligibility conditions all hold. -/
theorem replayArbitration_retained_iff {config : Config} {env : Env} {R : DialParameters} :
    (replayArbitration config env).1 = some R ↔
      env.storedDialParams = some R ∧ replayEligible config env R = true := by
  cases hS : env.storedDialParams with
  | none => simp [replayArbitration, hS]
  | some R0 =>
    simp only [replayArbitration, hS]
    split
    next hfail =>
      simp only [show ((none : Option DialParameters), some (env.serverEntry.ipAddress,
        config.networkID)).1 = none from rfl]
      constructor
      · intro hcontra
        exact absurd hcontra (by simp)
      · rintro ⟨hR0, helig⟩
        injection hR0 with hR0
        subst hR0
        rw [replayEligible_eq, Bool.and_eq_true, Bool.and_eq_true] at helig
        exact absurd hfail (replayRetentionConds_iff.mp helig.1.1)
    next hpass =>
      split
      next h89 =>
        constructor
        · intro hcontra
          exact absurd hcontra (by simp)
        · rintro ⟨hR0, helig⟩
          injection hR0 with hR0
          subst hR0
          rw [replayEligible_eq, Bool.and_eq_true, Bool.and_eq_true] at helig
          rcases h89 with h8 | h9
          · have hd : config.disableReplay = false := by simpa using helig.1.2
            rw [hd] at h8
            cases h8
          · exact absurd helig.2 (by simpa using h9)
      next h89 =>
        push_neg at h89
        constructor
        · intro hsome
          injection hsome with hsome
          subst hsome
          refine ⟨rfl, ?_⟩
          rw [replayEligible_eq, Bool.and_eq_true, Bool.and_eq_true]
          exact ⟨⟨replayRetentionConds_iff.mpr hpass, by simpa using h89.1⟩,
            by simpa using h89.2⟩
        · rintro ⟨hR0, _⟩
          injection hR0 with hR0
          rw [hR0]

/-- The arbitration deletes exactly when the stored record fails one of
the retention conditions (1)-(7); the deletion key is the server IP and
network ID. -/
theorem replayArbitration_deleted_iff {config : Config} {env : Env} {R : DialParameters}
    (hS : env.storedDialParams = some R) :
    (replayArbitration config env).2 =
      (if replayRetentionConds config env R = true then none
       else some (env.serverEntry.ipAddress, config.networkID)) := by
  simp only [replayArbitration, hS]
  split
  next hfail =>
    have hc : ¬ replayRetentionConds config env R = true := fun hcontra =>
      absurd hfail (replayRetentionConds_iff.mp hcontra)
    rw [if_neg hc]
  next hpass =>
    have hr := replayRetentionConds_iff.mpr hpass
    rw [if_pos hr]
    split
    next => rfl
    next => rfl

/-- The arbitration never deletes when the store is empty. -/
theorem replayArbitration_deleted_none {config : Config} {env : Env}
    (hS : env.storedDialParams = none) :
    (replayArbitration config env).2 = none := by
  simp [replayArbitration, hS]

theorem MakeDialParameters_fst {config : Config} {env : Env} :
    (MakeDialParameters config env).1 =
      composeDialParameters config env (replayArbitration config env).1 := rfl

theorem MakeDialParameters_snd {config : Config} {env : Env} :
    (MakeDialParameters config env).2 = (replayArbitration config env).2 := rfl

end DialSpec
namespace DialSpec

/-- Claim C1: for a non-exchanged stored record `R`, a record returned by
`MakeDialParameters` is a replay (`IsReplay` true, and then `R`'s tunnel
protocol is retained) exactly when the nine replay-eligibility conditions
of the claim all hold. -/
theorem MakeDialParameters_replay_iff {config : Config} {env : Env}
    {R d : DialParameters}
    (hS : env.storedDialParams = some R) (hX : R.isExchanged = false)
    (hok : (MakeDialParameters config env).1 = .ok d) :
    (d.isReplay = true ↔ replayEligible config env R = true) ∧
    (replayEligible config env R = true → d.tunnelProtocol = R.tunnelProtocol) := by
  rw [MakeDialParameters_fst] at hok
  cases hret : (replayArbitration config env).1 with
  | none =>
    rw [hret] at hok
    have M := composeDialParameters_ok hok
    have hrep : d.isReplay = false := by simpa using M.2.1
    have hnE : ¬ replayEligible config env R = true := by
      intro hE
      have h2 := replayArbitration_retained_iff.mpr ⟨hS, hE⟩
      rw [hret] at h2
      cases h2
    exact ⟨⟨fun h => absurd (hrep.symm.trans h) (by simp),
      fun hE => absurd hE hnE⟩, fun hE => absurd hE hnE⟩
  | some R0 =>
    obtain ⟨hS0, hE0⟩ := replayArbitration_retained_iff.mp hret
    rw [hS] at hS0
    injection hS0 with hRR
    subst hRR
    rw [hret] at hok
    have M := composeDialParameters_ok hok
    have hrep : d.isReplay = true := by
      rw [M.2.1]
      simp [hX]
    exact ⟨⟨fun _ => hE0, fun _ => hrep⟩, fun _ => M.2.2.1 R rfl⟩

/-- Witness for the replay characterization on the concrete replay
scenario. -/
theorem MakeDialParameters_replay_iff_witness :
    (outReplay.isReplay = true ↔ replayEligible cfgOSSH envReplay R1 = true) ∧
    (replayEligible cfgOSSH envReplay R1 = true →
      outReplay.tunnelProtocol = R1.tunnelProtocol) :=
  MakeDialParameters_replay_iff rfl rfl rfl

/-- Claim C2: with a stored record, the `DeleteDialParameters` effect
fires exactly when one of the retention conditions (1)-(7) fails, under
the key `(serverIP, networkID)`; when (1)-(7) hold but `DisableReplay`
or `canReplay` blocks replay, nothing is deleted and the record is only
dropped from memory (not retained for replay). -/
theorem MakeDialParameters_delete_iff {config : Config} {env : Env}
    {R : DialParameters}
    (hS : env.storedDialParams = some R) :
    (MakeDialParameters config env).2 =
      (if replayRetentionConds config env R = true then none
       else some (env.serverEntry.ipAddress, config.networkID)) ∧
    (replayRetentionConds config env R = true →
      config.disableReplay = true ∨ env.canReplay R.tunnelProtocol = false →
      (replayArbitration config env).1 = none) := by
  refine ⟨MakeDialParameters_snd.trans (replayArbitration_deleted_iff hS), ?_⟩
  intro _ h89
  cases hret : (replayArbitration config env).1 with
  | none => rfl
  | some R0 =>
    obtain ⟨hS0, hE0⟩ := replayArbitration_retained_iff.mp hret
    rw [hS] at hS0
    injection hS0 with hRR
    subst hRR
    rw [replayEligible_eq, Bool.and_eq_true, Bool.and_eq_true] at hE0
    rcases h89 with h8 | h9
    · have hd : config.disableReplay = false := by simpa using hE0.1.2
      rw [h8] at hd
      cases hd
    · rw [h9] at hE0
      exact absurd hE0.2 (by simp)

/-- Witness for the deletion characterization on the concrete replay
scenario. -/
theorem MakeDialParameters_delete_iff_witness :
    ((MakeDialParameters cfgOSSH envReplay).2 =
      (if replayRetentionConds cfgOSSH envReplay R1 = true then none
       else some (envReplay.serverEntry.ipAddress, cfgOSSH.networkID))) ∧
    (replayRetentionConds cfgOSSH envReplay R1 = true →
      cfgOSSH.disableReplay = true ∨ envReplay.canReplay R1.tunnelProtocol = false →
      (replayArbitration cfgOSSH envReplay).1 = none) :=
  MakeDialParameters_delete_iff rfl

/-- Claim C3 (counterexample): in the Conjure API registration scenario
`envConj`, `MakeDialParameters` returns a record whose `MeekSNIServerName`
is the IP literal from the fronting spec: the blanking of lines 1012-1029
is gated on `TunnelProtocolUsesMeek`, which excludes `CONJURE-OSSH`, so
the claimed invariant fails for Conjure API registration. -/
theorem MakeDialParameters_conjure_sni_ip_literal :
    (MakeDialParameters cfgConj envConj).1 = .ok outConj ∧
    outConj.meekSNIServerName = "9.9.9.9" ∧
    envConj.isIPAddress outConj.meekSNIServerName = true :=
  ⟨rfl, rfl, rfl⟩

/-- Claim C3 (amended): for every record returned by `MakeDialParameters`
whose tunnel protocol uses meek, `MeekSNIServerName` is not an IP literal
(given that the empty string is not one). -/
theorem MakeDialParameters_meek_sni_not_ip {config : Config} {env : Env}
    {d : DialParameters}
    (h0 : env.isIPAddress "" = false)
    (hok : (MakeDialParameters config env).1 = .ok d)
    (hm : tunnelProtocolUsesMeek d.tunnelProtocol = true) :
    env.isIPAddress d.meekSNIServerName = false := by
  rw [MakeDialParameters_fst] at hok
  exact (composeDialParameters_ok hok).2.2.2.2.2 h0 hm

/-- Witness for the amended SNI suppression on the concrete unfronted
meek HTTPS scenario. -/
theorem MakeDialParameters_meek_sni_not_ip_witness :
    envMeek.isIPAddress outMeek.meekSNIServerName = false :=
  @MakeDialParameters_meek_sni_not_ip cfgOSSH envMeek outMeek rfl rfl rfl

/-- Claim C4: for every record returned by `MakeDialParameters`, if
`OSSHPrefixSpec` is non-nil then the obfuscator seed transformer is nil.
The hypothesis states that any stored record carrying a prefix spec is an
OSSH record, which holds of every record the engine itself persists. -/
theorem MakeDialParameters_ossh_prefix_excludes_transformer {config : Config}
    {env : Env} {d : DialParameters}
    (hWF : ∀ R, env.storedDialParams = some R → R.osshPrefixSpec.isSome = true →
      R.tunnelProtocol = TUNNEL_PROTOCOL_OBFUSCATED_SSH)
    (hok : (MakeDialParameters config env).1 = .ok d)
    (hpre : d.osshPrefixSpec.isSome = true) :
    d.osshObfuscatorSeedTransformerParameters = none := by
  rw [MakeDialParameters_fst] at hok
  refine (composeDialParameters_ok hok).2.2.2.2.1 ?_ hpre
  intro R hR hps
  exact hWF R (replayArbitration_retained_iff.mp hR).1 hps

/-- Witness for the prefix/transformer exclusion on the concrete fresh
OSSH scenario. -/
theorem MakeDialParameters_ossh_prefix_excludes_transformer_witness :
    outOSSH.osshObfuscatorSeedTransformerParameters = none :=
  @MakeDialParameters_ossh_prefix_excludes_transformer cfgOSSH envOSSH outOSSH
    (fun _ hR _ => nomatch hR) rfl rfl

/-- Claim C5: `Succeeded` performs no store write when `LastUsedTimestamp`
is zero, and otherwise persists the entire record under
`(ServerEntry.IpAddress, NetworkID)`. -/
theorem Succeeded_spec (d : DialParameters) :
    (d.lastUsedTimestamp = 0 → Succeeded d = none) ∧
    (d.lastUsedTimestamp ≠ 0 →
      Succeeded d = some (d.serverEntry.ipAddress, d.networkID, d)) :=
  ⟨fun h => by unfold Succeeded; rw [if_pos h],
   fun h => by unfold Succeeded; rw [if_neg h]⟩

/-- Witness for the `Succeeded` persistence on the concrete stored
record. -/
theorem Succeeded_spec_witness :
    Succeeded R1 = some (R1.serverEntry.ipAddress, R1.networkID, R1) :=
  (Succeeded_spec R1).2 (by decide)

/-- Claim C6: `Failed` deletes `(ServerEntry.IpAddress, NetworkID)` iff
`IsReplay` is true and the retain coin flip came up false; a fresh
attempt never touches the store. -/
theorem Failed_spec (d : DialParameters) (retainFlip : Bool) :
    (Failed d retainFlip = some (d.serverEntry.ipAddress, d.networkID) ↔
      d.isReplay = true ∧ retainFlip = false) ∧
    (d.isReplay = false → Failed d retainFlip = none) := by
  unfold Failed
  constructor
  · constructor
    · intro h
      split at h
      next hc => exact ⟨hc.1, by simpa using hc.2⟩
      next => exact absurd h (by simp)
    · rintro ⟨h1, h2⟩
      rw [if_pos ⟨h1, by simp [h2]⟩]
  · intro h
    rw [if_neg (fun hc => by rw [h] at hc; exact absurd hc.1 (by simp))]

/-- Witness for the `Failed` deletion on a replayed record with a failing
retain flip. -/
theorem Failed_spec_witness :
    Failed dReplayed false = some (dReplayed.serverEntry.ipAddress, dReplayed.networkID) :=
  (Failed_spec dReplayed false).1.mpr ⟨rfl, rfl⟩

/-- Claim C9: an eligible stored exchanged record is not treated as a
replay: the returned record clears `IsExchanged`, has `IsReplay` false,
keeps the exchanged tunnel protocol, and the non-exchanged fields are
freshly initialized (the fresh seeds come from this composition's
draws). -/
theorem MakeDialParameters_exchanged_normalization {config : Config} {env : Env}
    {R d : DialParameters}
    (hS : env.storedDialParams = some R) (hX : R.isExchanged = true)
    (hE : replayEligible config env R = true)
    (hok : (MakeDialParameters config env).1 = .ok d) :
    d.isExchanged = false ∧ d.isReplay = false ∧
    d.tunnelProtocol = R.tunnelProtocol ∧
    d.sshClientVersion = env.oracle.sshClientVersion ∧
    d.sshKEXSeed = some env.oracle.sshKEXSeed ∧
    d.obfuscatorPaddingSeed = some env.oracle.obfuscatorPaddingSeed ∧
    d.fragmentorSeed = some env.oracle.fragmentorSeed ∧
    d.livenessTestSeed = some env.oracle.livenessTestSeed ∧
    d.apiRequestPaddingSeed = some env.oracle.apiRequestPaddingSeed := by
  rw [MakeDialParameters_fst, replayArbitration_retained_iff.mpr ⟨hS, hE⟩] at hok
  have M := composeDialParameters_ok hok
  have hrep : d.isReplay = false := by
    rw [M.2.1]
    simp [hX]
  obtain ⟨f1, f2, f3, f4, f5, f6⟩ := M.2.2.2.1 hrep
  exact ⟨M.1, hrep, M.2.2.1 R rfl, f1, f2, f3, f4, f5, f6⟩

/-- Witness for the exchanged normalization on the concrete exchanged
scenario. -/
theorem MakeDialParameters_exchanged_normalization_witness :
    outExch.isExchanged = false ∧ outExch.isReplay = false ∧
    outExch.tunnelProtocol = R9.tunnelProtocol ∧
    outExch.sshClientVersion = envExch.oracle.sshClientVersion ∧
    outExch.sshKEXSeed = some envExch.oracle.sshKEXSeed ∧
    outExch.obfuscatorPaddingSeed = some envExch.oracle.obfuscatorPaddingSeed ∧
    outExch.fragmentorSeed = some envExch.oracle.fragmentorSeed ∧
    outExch.livenessTestSeed = some envExch.oracle.livenessTestSeed ∧
    outExch.apiRequestPaddingSeed = some envExch.oracle.apiRequestPaddingSeed :=
  @MakeDialParameters_exchanged_normalization cfgOSSH envExch R9 outExch rfl rfl rfl rfl

end DialSpec
namespace DialSpec

/-- A limit-list filter condition, as the filter writes it and as the
eligibility predicate writes it. -/
theorem limitFilter_iff (l : List String) (v : String) :
    (¬ (l.length > 0 ∧ v ∉ l)) ↔ (l = [] ∨ v ∈ l) := by
  cases l <;> simp [or_iff_not_imp_left]

/-- The same condition in implication form, as `simp` normalizes it. -/
theorem limitFilter_imp_iff (l : List String) (v : String) :
    (0 < l.length → v ∈ l) ↔ (l = [] ∨ v ∈ l) := by
  cases l <;> simp

/-- The spec-side QUIC eligibility predicate holds iff the version is in
the applicable supported set and satisfies the filter condition of
`selectQUICVersion`. -/
theorem quicVersionEligible_iff (ext : ProtocolExt) (isFronted : Bool)
    (serverEntry : ServerEntry) (p : TacticsParams) (v : String) :
    quicVersionEligible ext isFronted serverEntry p v = true ↔
      v ∈ (if serverEntry.supportsOnlyQUICv1 then ext.supportedQUICv1Versions
           else ext.supportedQUICVersions) ∧
      (¬ (p.limitQUICVersions.length > 0 ∧ v ∉ p.limitQUICVersions) ∧
       ¬ (serverEntry.limitQUICVersions.length > 0 ∧
          v ∉ serverEntry.limitQUICVersions) ∧
       ¬ (isFronted ∧ ext.quicVersionIsObfuscated v) ∧
       v ∉ (if isFronted then
              (if serverEntry.frontingProviderID = "" then
                [QUIC_VERSION_V1, QUIC_VERSION_RANDOMIZED_V1,
                 QUIC_VERSION_OBFUSCATED_V1, QUIC_VERSION_DECOY_V1]
               else ((p.disableFrontingProviderQUICVersions.lookup
                 serverEntry.frontingProviderID).getD []))
            else [])) := by
  cases isFronted <;>
    simp [quicVersionEligible, limitFilter_imp_iff, and_assoc]

/-- The selected element of the uniform draw is a member of the list. -/
theorem get_mod_mem (L : List String) (choice : Nat) (h : ¬ L.length = 0) :
    L.get ⟨choice % L.length, Nat.mod_lt _ (Nat.pos_of_ne_zero h)⟩ ∈ L :=
  L.get_mem _ _

/-- The generic shape of the filtered uniform selections in
`dialParameters.go`: the draw either returns `""` with nothing passing
the filter, or returns a list member passing the filter. -/
theorem filter_select_spec (S : List String) (pred : String → Bool) (choice : Nat) :
    ((if h : (S.filter pred).length = 0 then "" else
        (S.filter pred).get ⟨choice % (S.filter pred).length,
          Nat.mod_lt _ (Nat.pos_of_ne_zero h)⟩) = "" ∧
      ∀ v, ¬ (v ∈ S ∧ pred v = true)) ∨
    ((if h : (S.filter pred).length = 0 then "" else
        (S.filter pred).get ⟨choice % (S.filter pred).length,
          Nat.mod_lt _ (Nat.pos_of_ne_zero h)⟩) ∈ S ∧
      pred (if h : (S.filter pred).length = 0 then "" else
        (S.filter pred).get ⟨choice % (S.filter pred).length,
          Nat.mod_lt _ (Nat.pos_of_ne_zero h)⟩) = true) := by
  split
  next h =>
    rw [List.length_eq_zero] at h
    refine Or.inl ⟨rfl, fun v hv => ?_⟩
    have hmem := List.mem_filter.mpr hv
    rw [h] at hmem
    exact absurd hmem (List.not_mem_nil v)
  next h =>
    exact Or.inr (List.mem_filter.mp (get_mod_mem _ choice h))

/-- `selectQUICVersion` either returns `""` with no eligible version at
all, or returns an eligible version. -/
theorem selectQUICVersion_empty_or_eligible (ext : ProtocolExt) (isFronted : Bool)
    (serverEntry : ServerEntry) (p : TacticsParams) (choice : Nat) :
    (selectQUICVersion ext isFronted serverEntry p choice = "" ∧
      ∀ v, quicVersionEligible ext isFronted serverEntry p v = false) ∨
    quicVersionEligible ext isFronted serverEntry p
      (selectQUICVersion ext isFronted serverEntry p choice) = true := by
  have hd := filter_select_spec
    (if serverEntry.supportsOnlyQUICv1 then ext.supportedQUICv1Versions
     else ext.supportedQUICVersions)
    (fun quicVersion =>
      ¬ (p.limitQUICVersions.length > 0 ∧ quicVersion ∉ p.limitQUICVersions) ∧
      ¬ (serverEntry.limitQUICVersions.length > 0 ∧
         quicVersion ∉ serverEntry.limitQUICVersions) ∧
      ¬ (isFronted ∧ ext.quicVersionIsObfuscated quicVersion) ∧
      quicVersion ∉ (if isFronted then
          (if serverEntry.frontingProviderID = "" then
            [QUIC_VERSION_V1, QUIC_VERSION_RANDOMIZED_V1,
             QUIC_VERSION_OBFUSCATED_V1, QUIC_VERSION_DECOY_V1]
           else ((p.disableFrontingProviderQUICVersions.lookup
             serverEntry.frontingProviderID).getD []))
         else []))
    choice
  rcases hd with ⟨he, hnil⟩ | ⟨hmemS, hpred⟩
  · left
    refine ⟨he, fun v => ?_⟩
    by_contra hv2
    rw [Bool.not_eq_false, quicVersionEligible_iff] at hv2
    exact hnil v ⟨hv2.1, by simpa only [decide_eq_true_eq] using hv2.2⟩
  · right
    rw [quicVersionEligible_iff]
    exact ⟨hmemS, by simpa only [decide_eq_true_eq] using hpred⟩

/-- Claim C7: `selectQUICVersion` returns a member of exactly the set of
supported versions that survive the tactics, server-entry and fronting
filters (captured by `quicVersionEligible`), and returns `""` when no
version survives. -/
theorem selectQUICVersion_spec (ext : ProtocolExt) (isFronted : Bool)
    (serverEntry : ServerEntry) (p : TacticsParams) (choice : Nat) :
    ((∃ v, quicVersionEligible ext isFronted serverEntry p v = true) →
      quicVersionEligible ext isFronted serverEntry p
        (selectQUICVersion ext isFronted serverEntry p choice) = true) ∧
    ((∀ v, quicVersionEligible ext isFronted serverEntry p v = false) →
      selectQUICVersion ext isFronted serverEntry p choice = "") := by
  rcases selectQUICVersion_empty_or_eligible ext isFronted serverEntry p choice with
    ⟨he, hall⟩ | helig
  · exact ⟨fun ⟨v, hv⟩ => absurd hv (by simp [hall v]), fun _ => he⟩
  · exact ⟨fun _ => helig, fun hall => absurd helig (by simp [hall])⟩

/-- Witness for the QUIC version selection characterization on a
concrete unfronted selection. -/
theorem selectQUICVersion_spec_witness :
    quicVersionEligible envQUIC.ext false seOSSH pReplay
      (selectQUICVersion envQUIC.ext false seOSSH pReplay 0) = true :=
  (selectQUICVersion_spec envQUIC.ext false seOSSH pReplay 0).1 ⟨"QUICv1", by decide⟩

/-- Claim C8: when a fresh QUIC composition reaches version selection and
`selectQUICVersion` returns `""`, `MakeDialParameters` returns the silent
skip `(nil, nil)`. -/
theorem MakeDialParameters_quic_skip {config : Config} {env : Env}
    {d12 : DialParameters}
    (hS : env.storedDialParams = none)
    (hRes : config.hasResolver = true)
    (hpre : composeThroughHostname config env none = .ok d12)
    (hq : tunnelProtocolUsesQUIC d12.tunnelProtocol = true)
    (hsel : selectQUICVersion env.ext
        (tunnelProtocolUsesFrontedMeekQUIC d12.tunnelProtocol)
        env.serverEntry env.pCustom env.oracle.quicVersionChoice = "") :
    MakeDialParameters config env = (.skip, none) := by
  have hrep12 : d12.isReplay = false := by
    have hpre2 := hpre
    simp only [composeThroughHostname] at hpre2
    obtain ⟨a12, h, H13⟩ := Outcome.bind_ok.mp hpre2
    obtain ⟨a11, h, H12⟩ := Outcome.bind_ok.mp h
    obtain ⟨a10, h, H11⟩ := Outcome.bind_ok.mp h
    obtain ⟨a9, h, H10⟩ := Outcome.bind_ok.mp h
    obtain ⟨a8, h, H9⟩ := Outcome.bind_ok.mp h
    obtain ⟨a7, h, H8⟩ := Outcome.bind_ok.mp h
    obtain ⟨a6, h, H7⟩ := Outcome.bind_ok.mp h
    obtain ⟨a5, h, H6⟩ := Outcome.bind_ok.mp h
    obtain ⟨a4, h, H5⟩ := Outcome.bind_ok.mp h
    obtain ⟨a3, h, H4⟩ := Outcome.bind_ok.mp h
    obtain ⟨a2, H2, H3⟩ := Outcome.bind_ok.mp h
    obtain ⟨s2ir, _⟩ := stepSelectProtocol_frame H2
    have T3 := stepRestrictFronting_frame H3
    have T4 := stepUpstreamProxy_frame H4
    have T5 := stepBPF_frame H5
    obtain ⟨s6ir, _⟩ := stepSSH_frame H6
    obtain ⟨s7ir, _⟩ := stepObfuscatorPadding_frame H7
    obtain ⟨s8ir, _⟩ := stepFragmentor_frame H8
    obtain ⟨s9ir, _⟩ := stepConjureRegistration_frame H9
    have T10 := stepConjureTransport_frame H10
    have T11 := stepTLSProfile_frame H11
    have T12 := stepFrontingParameters_frame H12
    obtain ⟨s13ir, _⟩ := stepHostname_frame H13
    rw [s13ir, T12.isReplay, T11.isReplay, T10.isReplay, s9ir, s8ir, s7ir, s6ir,
      T5.isReplay, T4.isReplay, T3.isReplay, s2ir, initialDialParameters_isReplay]
    rfl
  have harb : replayArbitration config env = (none, none) := by
    simp [replayArbitration, hS]
  have hb : stepQUICVersion env d12 = .skip := by
    simp only [stepQUICVersion]
    rw [if_pos ⟨Or.inl (by simp [hrep12]), hq⟩, if_pos hsel]
  have hskip : composeDialParameters config env none = .skip := by
    unfold composeDialParameters
    rw [if_neg (by simp [hRes])]
    show composeThroughHostname config env none >>=
      stepQUICVersion env >>=
      stepObfuscatedQUICPadding env >>=
      stepObfuscatedQUICNonce env >>=
      stepLivenessTest env >>=
      stepAPIRequestPadding env >>=
      stepResolveParameters env >>=
      stepHoldOffTunnel env >>=
      stepOSSHExtras env >>=
      stepHTTPTransformer env >>=
      stepDialAddress env >>=
      stepMeekAddressChecks env >>=
      stepTLSFragmentClientHello env >>=
      stepHeadersAndConfigs config env = .skip
    rw [hpre]
    show stepQUICVersion env d12 >>=
      stepObfuscatedQUICPadding env >>=
      stepObfuscatedQUICNonce env >>=
      stepLivenessTest env >>=
      stepAPIRequestPadding env >>=
      stepResolveParameters env >>=
      stepHoldOffTunnel env >>=
      stepOSSHExtras env >>=
      stepHTTPTransformer env >>=
      stepDialAddress env >>=
      stepMeekAddressChecks env >>=
      stepTLSFragmentClientHello env >>=
      stepHeadersAndConfigs config env = .skip
    rw [hb]
    rfl
  show (composeDialParameters config env (replayArbitration config env).1,
    (replayArbitration config env).2) = (Outcome.skip, none)
  rw [harb]
  show (composeDialParameters config env none, none) =
    ((Outcome.skip : Outcome DialParameters), none)
  rw [hskip]

/-- Witness for the QUIC silent skip on the concrete empty-selection
scenario. -/
theorem MakeDialParameters_quic_skip_witness :
    MakeDialParameters cfgOSSH envQUIC = (Outcome.skip, none) :=
  @MakeDialParameters_quic_skip cfgOSSH envQUIC outQUICPre rfl rfl rfl rfl rfl

/-- String inequality gives a false `BEq` test. -/
theorem str_beq_false {a b : String} (h : ¬ a = b) : (a == b) = false := by
  simp [h]

/-- `List.lookup` distributes over append, preferring the left list. -/
theorem lookup_append (l1 l2 : List (String × List String)) (k : String) :
    (l1 ++ l2).lookup k = ((l1.lookup k).or (l2.lookup k)) := by
  induction l1 with
  | nil => rfl
  | cons kv t ih =>
    obtain ⟨a, b⟩ := kv
    cases hk : k == a <;> simp [List.lookup, hk, ih]

/-- Filtering out another key does not change a lookup. -/
theorem lookup_filter_ne (l : List (String × List String)) (k1 k2 : String)
    (h : k1 ≠ k2) :
    (l.filter fun kv => kv.1 ≠ k2).lookup k1 = l.lookup k1 := by
  induction l with
  | nil => rfl
  | cons kv t ih =>
    obtain ⟨a, b⟩ := kv
    rw [List.filter_cons]
    by_cases ha : a = k2
    · rw [if_neg (by simp [ha])]
      rw [ih]
      have hka : (k1 == a) = false := str_beq_false (by rw [ha]; exact h)
      simp [List.lookup, hka]
    · rw [if_pos (by simp [ha])]
      cases hka : k1 == a
      · simp only [List.lookup, hka]
        exact ih
      · simp only [List.lookup, hka]

/-- Filtering out a key makes its lookup `none`. -/
theorem lookup_filter_self (l : List (String × List String)) (k : String) :
    (l.filter fun kv => kv.1 ≠ k).lookup k = none := by
  induction l with
  | nil => rfl
  | cons kv t ih =>
    obtain ⟨a, b⟩ := kv
    rw [List.filter_cons]
    by_cases ha : a = k
    · rw [if_neg (by simp [ha])]
      exact ih
    · rw [if_pos (by simp [ha])]
      have hka : (k == a) = false := str_beq_false (fun he => ha he.symm)
      simp only [List.lookup, hka]
      exact ih

/-- Lookup after a Go map assignment (`setHeader`): the assigned key gets
the new value, all other keys are unchanged. -/
theorem lookup_setHeader (h : List (String × List String)) (k k2 : String)
    (v : List String) :
    (setHeader h k2 v).lookup k = if k = k2 then some v else h.lookup k := by
  rw [setHeader, lookup_append]
  by_cases hk : k = k2
  · subst hk
    rw [lookup_filter_self, if_pos rfl]
    simp [List.lookup]
  · rw [lookup_filter_ne _ _ _ hk, if_neg hk]
    have hka : (k == k2) = false := str_beq_false hk
    simp [List.lookup, hka]

/-- A key absent from an association list has lookup `none`. -/
theorem lookup_eq_none_of_not_mem (l : List (String × List String)) (k : String)
    (h : k ∉ l.map Prod.fst) :
    l.lookup k = none := by
  induction l with
  | nil => rfl
  | cons kv t ih =>
    obtain ⟨a, b⟩ := kv
    simp only [List.map_cons, List.mem_cons] at h
    push_neg at h
    have hka : (k == a) = false := str_beq_false h.1
    simp [List.lookup, hka, ih h.2]

/-- Folding `setHeader` over a list with distinct keys: the fold's
entries shadow the initial headers. -/
theorem lookup_foldl_setHeader (l : List (String × List String))
    (init : List (String × List String)) (k : String)
    (hnd : (l.map Prod.fst).Nodup) :
    (l.foldl (fun h kv => setHeader h kv.1 kv.2) init).lookup k =
      ((l.lookup k).or (init.lookup k)) := by
  induction l generalizing init with
  | nil => rfl
  | cons kv t ih =>
    simp only [List.map_cons, List.nodup_cons] at hnd
    rw [List.foldl_cons, ih _ hnd.2, lookup_setHeader]
    obtain ⟨a, b⟩ := kv
    by_cases hk : k = a
    · subst hk
      rw [if_pos rfl, lookup_eq_none_of_not_mem t k hnd.1]
      simp [List.lookup]
    · rw [if_neg hk]
      have hka : (k == a) = false := str_beq_false hk
      simp [List.lookup, hka]

/-- Claim C10: in the combined dial custom headers, a tactics
`AdditionalCustomHeaders` entry takes precedence over a config
`CustomHeaders` entry with the same name, and names present in only one
source keep that source's value. -/
theorem makeDialCustomHeaders_lookup (config : Config) (p : TacticsParams)
    (k : String)
    (hc : (config.customHeaders.map Prod.fst).Nodup)
    (ha : (p.additionalCustomHeaders.map Prod.fst).Nodup) :
    (makeDialCustomHeaders config p).lookup k =
      ((p.additionalCustomHeaders.lookup k).or (config.customHeaders.lookup k)) := by
  simp only [makeDialCustomHeaders]
  rw [lookup_foldl_setHeader _ _ _ ha, lookup_foldl_setHeader _ _ _ hc]
  cases p.additionalCustomHeaders.lookup k <;>
    cases config.customHeaders.lookup k <;> rfl

/-- Witness for the header precedence on a concrete colliding header
name. -/
theorem makeDialCustomHeaders_lookup_witness :
    (makeDialCustomHeaders cfgOSSH pC10).lookup "X-A" =
      ((pC10.additionalCustomHeaders.lookup "X-A").or
        (cfgOSSH.customHeaders.lookup "X-A")) :=
  makeDialCustomHeaders_lookup cfgOSSH pC10 "X-A" (by decide) (by decide)

end DialSpec
